import Mathlib

set_option maxRecDepth 100000
set_option maxHeartbeats 1000000

/-!
Shallow embedding of curl's lib/vtls/cipher_suite.c: the compressed cipher
suite name table, the name/id lookup functions and the list tokenizer.
Strings are modelled as lists of characters; C byte values are Nat.
-/

/-- Modelled from the spec: Curl_raw_toupper (strcase.h, not under src/) —
ASCII case normalisation used by the case-insensitive comparisons; returns
the character's code with lowercase letters mapped to uppercase. -/
def cs_upper (c : Char) : Nat :=
  if 97 ≤ c.toNat ∧ c.toNat ≤ 122 then c.toNat - 32 else c.toNat

/-- The token dictionary cs_txt: 36 entries, index 0 is the empty sentinel. -/
def cs_txt : List String :=
  ["", "TLS", "WITH", "128", "256", "3DES", "8", "AES", "AES128", "AES256",
   "CBC", "CBC3", "CCM", "CCM8", "CHACHA20", "DES", "DHE", "ECDH", "ECDHE",
   "ECDSA", "EDE", "GCM", "MD5", "NULL", "POLY1305", "PSK", "RSA",
   "SHA", "SHA256", "SHA384", "ARIA", "ARIA128", "ARIA256", "CAMELLIA",
   "CAMELLIA128", "CAMELLIA256"]

def cs_tokens : List (List Char) := cs_txt.map String.data

/-- Modelled from the spec: strncasecompare (strcase.h, not under src/) on a
token of length equal to the field length — case-insensitive equality. -/
def cs_caseeq : List Char → List Char → Bool
  | [], [] => true
  | a :: as, b :: bs => cs_upper a == cs_upper b && cs_caseeq as bs
  | _, _ => false

/-- The inner dictionary scan of cs_str_to_zip: linear scan from index 1
(skipping the empty string at 0), first case-insensitive match wins. -/
def cs_find_go : List (List Char) → Nat → List Char → Option Nat
  | [], _, _ => none
  | t :: ts, i, f => if cs_caseeq t f then some i else cs_find_go ts (i + 1) f

def cs_find_token (f : List Char) : Option Nat :=
  cs_find_go (cs_tokens.drop 1) 1 f

/-- Modelled from the spec: strncasecompare (cs_str, "TLS", 3) — the
length-checked case-insensitive test that a name begins with "TLS",
used to choose the separator in cs_str_to_zip. -/
def cs_starts_tls : List Char → Bool
  | a :: b :: c :: _ => cs_upper a == 84 && cs_upper b == 76 && cs_upper c == 83
  | _ => false

def cs_sep_of (s : List Char) : Char := if cs_starts_tls s then '_' else '-'

/-- The field scan of cs_str_to_zip stops at an embedded NUL byte: only the
prefix before the first NUL is split into fields. -/
def cs_eff (s : List Char) : List Char := s.takeWhile (fun c => c ≠ '\x00')

/-- Splitting on the separator, as done by the do/while loop of
cs_str_to_zip: the empty input yields one empty field, a trailing
separator yields a trailing empty field. -/
def cs_split (sep : Char) : List Char → List (List Char)
  | [] => [[]]
  | c :: cs =>
    if c = sep then [] :: cs_split sep cs
    else
      match cs_split sep cs with
      | [] => [[c]]
      | f :: fs => (c :: f) :: fs

def cs_fields (s : List Char) : List (List Char) :=
  cs_split (cs_sep_of s) (cs_eff s)

/-- Failure modes of cs_str_to_zip (the C code returns -1 for both). -/
inductive CsErr where
  | tooMany : CsErr
  | unknownToken : CsErr
deriving DecidableEq

/-- The do/while loop of cs_str_to_zip: at most 8 fields, each resolved in
the dictionary; the 9th field hits the i == 8 check before any lookup. -/
def cs_fields_to_idx : List (List Char) → Nat → Except CsErr (List Nat)
  | [], _ => .ok []
  | f :: fs, i =>
    if i = 8 then .error .tooMany
    else
      match cs_find_token f with
      | none => .error .unknownToken
      | some idx =>
        match cs_fields_to_idx fs (i + 1) with
        | .error e => .error e
        | .ok l => .ok (idx :: l)

/-- The CS_ZIP_IDX macro: packs 8 six-bit indexes into 6 bytes. -/
def CS_ZIP_IDX (a b c d e f g h : Nat) : List Nat :=
  [(a <<< 2 ||| (b &&& 0x3F) >>> 4) % 256,
   (b <<< 4 ||| (c &&& 0x3F) >>> 2) % 256,
   (c <<< 6 ||| (d &&& 0x3F)) % 256,
   (e <<< 2 ||| (f &&& 0x3F) >>> 4) % 256,
   (f <<< 4 ||| (g &&& 0x3F) >>> 2) % 256,
   (g <<< 6 ||| (h &&& 0x3F)) % 256]

/-- The final packing step of cs_str_to_zip: unset index slots are 0. -/
def cs_pack (l : List Nat) : List Nat :=
  CS_ZIP_IDX (l.getD 0 0) (l.getD 1 0) (l.getD 2 0) (l.getD 3 0)
    (l.getD 4 0) (l.getD 5 0) (l.getD 6 0) (l.getD 7 0)

/-- cs_str_to_zip: split the name by the separator and pack the dictionary
indexes of its fields; the C function returns -1 on either failure. -/
def cs_str_to_zip (s : List Char) : Except CsErr (List Nat) :=
  match cs_fields_to_idx (cs_fields s) 0 with
  | .error e => .error e
  | .ok l => .ok (cs_pack l)

/-- struct cs_entry: a 16-bit identifier and the 6 packed name bytes. -/
structure cs_entry where
  id : Nat
  zip : List Nat
deriving DecidableEq

/-- The CS_ENTRY macro: builds a table entry from 8 dictionary indexes. -/
def CS_ENTRY (id a b c d e f g h : Nat) : cs_entry :=
  ⟨id, CS_ZIP_IDX a b c d e f g h⟩

def CS_TXT_IDX_ : Nat := 0
def CS_TXT_IDX_TLS : Nat := 1
def CS_TXT_IDX_WITH : Nat := 2
def CS_TXT_IDX_128 : Nat := 3
def CS_TXT_IDX_256 : Nat := 4
def CS_TXT_IDX_3DES : Nat := 5
def CS_TXT_IDX_8 : Nat := 6
def CS_TXT_IDX_AES : Nat := 7
def CS_TXT_IDX_AES128 : Nat := 8
def CS_TXT_IDX_AES256 : Nat := 9
def CS_TXT_IDX_CBC : Nat := 10
def CS_TXT_IDX_CBC3 : Nat := 11
def CS_TXT_IDX_CCM : Nat := 12
def CS_TXT_IDX_CCM8 : Nat := 13
def CS_TXT_IDX_CHACHA20 : Nat := 14
def CS_TXT_IDX_DES : Nat := 15
def CS_TXT_IDX_DHE : Nat := 16
def CS_TXT_IDX_ECDH : Nat := 17
def CS_TXT_IDX_ECDHE : Nat := 18
def CS_TXT_IDX_ECDSA : Nat := 19
def CS_TXT_IDX_EDE : Nat := 20
def CS_TXT_IDX_GCM : Nat := 21
def CS_TXT_IDX_MD5 : Nat := 22
def CS_TXT_IDX_NULL : Nat := 23
def CS_TXT_IDX_POLY1305 : Nat := 24
def CS_TXT_IDX_PSK : Nat := 25
def CS_TXT_IDX_RSA : Nat := 26
def CS_TXT_IDX_SHA : Nat := 27
def CS_TXT_IDX_SHA256 : Nat := 28
def CS_TXT_IDX_SHA384 : Nat := 29
def CS_TXT_IDX_ARIA : Nat := 30
def CS_TXT_IDX_ARIA128 : Nat := 31
def CS_TXT_IDX_ARIA256 : Nat := 32
def CS_TXT_IDX_CAMELLIA : Nat := 33
def CS_TXT_IDX_CAMELLIA128 : Nat := 34
def CS_TXT_IDX_CAMELLIA256 : Nat := 35
def CS_TXT_LEN : Nat := 36

def cs_list : List cs_entry := [
  CS_ENTRY 0x002F CS_TXT_IDX_TLS CS_TXT_IDX_RSA CS_TXT_IDX_WITH CS_TXT_IDX_AES CS_TXT_IDX_128 CS_TXT_IDX_CBC CS_TXT_IDX_SHA CS_TXT_IDX_,
  CS_ENTRY 0x002F CS_TXT_IDX_AES128 CS_TXT_IDX_SHA CS_TXT_IDX_ CS_TXT_IDX_ CS_TXT_IDX_ CS_TXT_IDX_ CS_TXT_IDX_ CS_TXT_IDX_,
  CS_ENTRY 0x0035 CS_TXT_IDX_TLS CS_TXT_IDX_RSA CS_TXT_IDX_WITH CS_TXT_IDX_AES CS_TXT_IDX_256 CS_TXT_IDX_CBC CS_TXT_IDX_SHA CS_TXT_IDX_,
  CS_ENTRY 0x0035 CS_TXT_IDX_AES256 CS_TXT_IDX_SHA CS_TXT_IDX_ CS_TXT_IDX_ CS_TXT_IDX_ CS_TXT_IDX_ CS_TXT_IDX_ CS_TXT_IDX_,
  CS_ENTRY 0x003C CS_TXT_IDX_TLS CS_TXT_IDX_RSA CS_TXT_IDX_WITH CS_TXT_IDX_AES CS_TXT_IDX_128 CS_TXT_IDX_CBC CS_TXT_IDX_SHA256 CS_TXT_IDX_,
  CS_ENTRY 0x003C CS_TXT_IDX_AES128 CS_TXT_IDX_SHA256 CS_TXT_IDX_ CS_TXT_IDX_ CS_TXT_IDX_ CS_TXT_IDX_ CS_TXT_IDX_ CS_TXT_IDX_,
  CS_ENTRY 0x003D CS_TXT_IDX_TLS CS_TXT_IDX_RSA CS_TXT_IDX_WITH CS_TXT_IDX_AES CS_TXT_IDX_256 CS_TXT_IDX_CBC CS_TXT_IDX_SHA256 CS_TXT_IDX_,
  CS_ENTRY 0x003D CS_TXT_IDX_AES256 CS_TXT_IDX_SHA256 CS_TXT_IDX_ CS_TXT_IDX_ CS_TXT_IDX_ CS_TXT_IDX_ CS_TXT_IDX_ CS_TXT_IDX_,
  CS_ENTRY 0x009C CS_TXT_IDX_TLS CS_TXT_IDX_RSA CS_TXT_IDX_WITH CS_TXT_IDX_AES CS_TXT_IDX_128 CS_TXT_IDX_GCM CS_TXT_IDX_SHA256 CS_TXT_IDX_,
  CS_ENTRY 0x009C CS_TXT_IDX_AES128 CS_TXT_IDX_GCM CS_TXT_IDX_SHA256 CS_TXT_IDX_ CS_TXT_IDX_ CS_TXT_IDX_ CS_TXT_IDX_ CS_TXT_IDX_,
  CS_ENTRY 0x009D CS_TXT_IDX_TLS CS_TXT_IDX_RSA CS_TXT_IDX_WITH CS_TXT_IDX_AES CS_TXT_IDX_256 CS_TXT_IDX_GCM CS_TXT_IDX_SHA384 CS_TXT_IDX_,
  CS_ENTRY 0x009D CS_TXT_IDX_AES256 CS_TXT_IDX_GCM CS_TXT_IDX_SHA384 CS_TXT_IDX_ CS_TXT_IDX_ CS_TXT_IDX_ CS_TXT_IDX_ CS_TXT_IDX_,
  CS_ENTRY 0xC004 CS_TXT_IDX_TLS CS_TXT_IDX_ECDH CS_TXT_IDX_ECDSA CS_TXT_IDX_WITH CS_TXT_IDX_AES CS_TXT_IDX_128 CS_TXT_IDX_CBC CS_TXT_IDX_SHA,
  CS_ENTRY 0xC004 CS_TXT_IDX_ECDH CS_TXT_IDX_ECDSA CS_TXT_IDX_AES128 CS_TXT_IDX_SHA CS_TXT_IDX_ CS_TXT_IDX_ CS_TXT_IDX_ CS_TXT_IDX_,
  CS_ENTRY 0xC005 CS_TXT_IDX_TLS CS_TXT_IDX_ECDH CS_TXT_IDX_ECDSA CS_TXT_IDX_WITH CS_TXT_IDX_AES CS_TXT_IDX_256 CS_TXT_IDX_CBC CS_TXT_IDX_SHA,
  CS_ENTRY 0xC005 CS_TXT_IDX_ECDH CS_TXT_IDX_ECDSA CS_TXT_IDX_AES256 CS_TXT_IDX_SHA CS_TXT_IDX_ CS_TXT_IDX_ CS_TXT_IDX_ CS_TXT_IDX_,
  CS_ENTRY 0xC009 CS_TXT_IDX_TLS CS_TXT_IDX_ECDHE CS_TXT_IDX_ECDSA CS_TXT_IDX_WITH CS_TXT_IDX_AES CS_TXT_IDX_128 CS_TXT_IDX_CBC CS_TXT_IDX_SHA,
  CS_ENTRY 0xC009 CS_TXT_IDX_ECDHE CS_TXT_IDX_ECDSA CS_TXT_IDX_AES128 CS_TXT_IDX_SHA CS_TXT_IDX_ CS_TXT_IDX_ CS_TXT_IDX_ CS_TXT_IDX_,
  CS_ENTRY 0xC00A CS_TXT_IDX_TLS CS_TXT_IDX_ECDHE CS_TXT_IDX_ECDSA CS_TXT_IDX_WITH CS_TXT_IDX_AES CS_TXT_IDX_256 CS_TXT_IDX_CBC CS_TXT_IDX_SHA,
  CS_ENTRY 0xC00A CS_TXT_IDX_ECDHE CS_TXT_IDX_ECDSA CS_TXT_IDX_AES256 CS_TXT_IDX_SHA CS_TXT_IDX_ CS_TXT_IDX_ CS_TXT_IDX_ CS_TXT_IDX_,
  CS_ENTRY 0xC00E CS_TXT_IDX_TLS CS_TXT_IDX_ECDH CS_TXT_IDX_RSA CS_TXT_IDX_WITH CS_TXT_IDX_AES CS_TXT_IDX_128 CS_TXT_IDX_CBC CS_TXT_IDX_SHA,
  CS_ENTRY 0xC00E CS_TXT_IDX_ECDH CS_TXT_IDX_RSA CS_TXT_IDX_AES128 CS_TXT_IDX_SHA CS_TXT_IDX_ CS_TXT_IDX_ CS_TXT_IDX_ CS_TXT_IDX_,
  CS_ENTRY 0xC00F CS_TXT_IDX_TLS CS_TXT_IDX_ECDH CS_TXT_IDX_RSA CS_TXT_IDX_WITH CS_TXT_IDX_AES CS_TXT_IDX_256 CS_TXT_IDX_CBC CS_TXT_IDX_SHA,
  CS_ENTRY 0xC00F CS_TXT_IDX_ECDH CS_TXT_IDX_RSA CS_TXT_IDX_AES256 CS_TXT_IDX_SHA CS_TXT_IDX_ CS_TXT_IDX_ CS_TXT_IDX_ CS_TXT_IDX_,
  CS_ENTRY 0xC013 CS_TXT_IDX_TLS CS_TXT_IDX_ECDHE CS_TXT_IDX_RSA CS_TXT_IDX_WITH CS_TXT_IDX_AES CS_TXT_IDX_128 CS_TXT_IDX_CBC CS_TXT_IDX_SHA,
  CS_ENTRY 0xC013 CS_TXT_IDX_ECDHE CS_TXT_IDX_RSA CS_TXT_IDX_AES128 CS_TXT_IDX_SHA CS_TXT_IDX_ CS_TXT_IDX_ CS_TXT_IDX_ CS_TXT_IDX_,
  CS_ENTRY 0xC014 CS_TXT_IDX_TLS CS_TXT_IDX_ECDHE CS_TXT_IDX_RSA CS_TXT_IDX_WITH CS_TXT_IDX_AES CS_TXT_IDX_256 CS_TXT_IDX_CBC CS_TXT_IDX_SHA,
  CS_ENTRY 0xC014 CS_TXT_IDX_ECDHE CS_TXT_IDX_RSA CS_TXT_IDX_AES256 CS_TXT_IDX_SHA CS_TXT_IDX_ CS_TXT_IDX_ CS_TXT_IDX_ CS_TXT_IDX_,
  CS_ENTRY 0xC023 CS_TXT_IDX_TLS CS_TXT_IDX_ECDHE CS_TXT_IDX_ECDSA CS_TXT_IDX_WITH CS_TXT_IDX_AES CS_TXT_IDX_128 CS_TXT_IDX_CBC CS_TXT_IDX_SHA256,
  CS_ENTRY 0xC023 CS_TXT_IDX_ECDHE CS_TXT_IDX_ECDSA CS_TXT_IDX_AES128 CS_TXT_IDX_SHA256 CS_TXT_IDX_ CS_TXT_IDX_ CS_TXT_IDX_ CS_TXT_IDX_,
  CS_ENTRY 0xC024 CS_TXT_IDX_TLS CS_TXT_IDX_ECDHE CS_TXT_IDX_ECDSA CS_TXT_IDX_WITH CS_TXT_IDX_AES CS_TXT_IDX_256 CS_TXT_IDX_CBC CS_TXT_IDX_SHA384,
  CS_ENTRY 0xC024 CS_TXT_IDX_ECDHE CS_TXT_IDX_ECDSA CS_TXT_IDX_AES256 CS_TXT_IDX_SHA384 CS_TXT_IDX_ CS_TXT_IDX_ CS_TXT_IDX_ CS_TXT_IDX_,
  CS_ENTRY 0xC025 CS_TXT_IDX_TLS CS_TXT_IDX_ECDH CS_TXT_IDX_ECDSA CS_TXT_IDX_WITH CS_TXT_IDX_AES CS_TXT_IDX_128 CS_TXT_IDX_CBC CS_TXT_IDX_SHA256,
  CS_ENTRY 0xC025 CS_TXT_IDX_ECDH CS_TXT_IDX_ECDSA CS_TXT_IDX_AES128 CS_TXT_IDX_SHA256 CS_TXT_IDX_ CS_TXT_IDX_ CS_TXT_IDX_ CS_TXT_IDX_,
  CS_ENTRY 0xC026 CS_TXT_IDX_TLS CS_TXT_IDX_ECDH CS_TXT_IDX_ECDSA CS_TXT_IDX_WITH CS_TXT_IDX_AES CS_TXT_IDX_256 CS_TXT_IDX_CBC CS_TXT_IDX_SHA384,
  CS_ENTRY 0xC026 CS_TXT_IDX_ECDH CS_TXT_IDX_ECDSA CS_TXT_IDX_AES256 CS_TXT_IDX_SHA384 CS_TXT_IDX_ CS_TXT_IDX_ CS_TXT_IDX_ CS_TXT_IDX_,
  CS_ENTRY 0xC027 CS_TXT_IDX_TLS CS_TXT_IDX_ECDHE CS_TXT_IDX_RSA CS_TXT_IDX_WITH CS_TXT_IDX_AES CS_TXT_IDX_128 CS_TXT_IDX_CBC CS_TXT_IDX_SHA256,
  CS_ENTRY 0xC027 CS_TXT_IDX_ECDHE CS_TXT_IDX_RSA CS_TXT_IDX_AES128 CS_TXT_IDX_SHA256 CS_TXT_IDX_ CS_TXT_IDX_ CS_TXT_IDX_ CS_TXT_IDX_,
  CS_ENTRY 0xC028 CS_TXT_IDX_TLS CS_TXT_IDX_ECDHE CS_TXT_IDX_RSA CS_TXT_IDX_WITH CS_TXT_IDX_AES CS_TXT_IDX_256 CS_TXT_IDX_CBC CS_TXT_IDX_SHA384,
  CS_ENTRY 0xC028 CS_TXT_IDX_ECDHE CS_TXT_IDX_RSA CS_TXT_IDX_AES256 CS_TXT_IDX_SHA384 CS_TXT_IDX_ CS_TXT_IDX_ CS_TXT_IDX_ CS_TXT_IDX_,
  CS_ENTRY 0xC029 CS_TXT_IDX_TLS CS_TXT_IDX_ECDH CS_TXT_IDX_RSA CS_TXT_IDX_WITH CS_TXT_IDX_AES CS_TXT_IDX_128 CS_TXT_IDX_CBC CS_TXT_IDX_SHA256,
  CS_ENTRY 0xC029 CS_TXT_IDX_ECDH CS_TXT_IDX_RSA CS_TXT_IDX_AES128 CS_TXT_IDX_SHA256 CS_TXT_IDX_ CS_TXT_IDX_ CS_TXT_IDX_ CS_TXT_IDX_,
  CS_ENTRY 0xC02A CS_TXT_IDX_TLS CS_TXT_IDX_ECDH CS_TXT_IDX_RSA CS_TXT_IDX_WITH CS_TXT_IDX_AES CS_TXT_IDX_256 CS_TXT_IDX_CBC CS_TXT_IDX_SHA384,
  CS_ENTRY 0xC02A CS_TXT_IDX_ECDH CS_TXT_IDX_RSA CS_TXT_IDX_AES256 CS_TXT_IDX_SHA384 CS_TXT_IDX_ CS_TXT_IDX_ CS_TXT_IDX_ CS_TXT_IDX_,
  CS_ENTRY 0xC02B CS_TXT_IDX_TLS CS_TXT_IDX_ECDHE CS_TXT_IDX_ECDSA CS_TXT_IDX_WITH CS_TXT_IDX_AES CS_TXT_IDX_128 CS_TXT_IDX_GCM CS_TXT_IDX_SHA256,
  CS_ENTRY 0xC02B CS_TXT_IDX_ECDHE CS_TXT_IDX_ECDSA CS_TXT_IDX_AES128 CS_TXT_IDX_GCM CS_TXT_IDX_SHA256 CS_TXT_IDX_ CS_TXT_IDX_ CS_TXT_IDX_,
  CS_ENTRY 0xC02C CS_TXT_IDX_TLS CS_TXT_IDX_ECDHE CS_TXT_IDX_ECDSA CS_TXT_IDX_WITH CS_TXT_IDX_AES CS_TXT_IDX_256 CS_TXT_IDX_GCM CS_TXT_IDX_SHA384,
  CS_ENTRY 0xC02C CS_TXT_IDX_ECDHE CS_TXT_IDX_ECDSA CS_TXT_IDX_AES256 CS_TXT_IDX_GCM CS_TXT_IDX_SHA384 CS_TXT_IDX_ CS_TXT_IDX_ CS_TXT_IDX_,
  CS_ENTRY 0xC02D CS_TXT_IDX_TLS CS_TXT_IDX_ECDH CS_TXT_IDX_ECDSA CS_TXT_IDX_WITH CS_TXT_IDX_AES CS_TXT_IDX_128 CS_TXT_IDX_GCM CS_TXT_IDX_SHA256,
  CS_ENTRY 0xC02D CS_TXT_IDX_ECDH CS_TXT_IDX_ECDSA CS_TXT_IDX_AES128 CS_TXT_IDX_GCM CS_TXT_IDX_SHA256 CS_TXT_IDX_ CS_TXT_IDX_ CS_TXT_IDX_,
  CS_ENTRY 0xC02E CS_TXT_IDX_TLS CS_TXT_IDX_ECDH CS_TXT_IDX_ECDSA CS_TXT_IDX_WITH CS_TXT_IDX_AES CS_TXT_IDX_256 CS_TXT_IDX_GCM CS_TXT_IDX_SHA384,
  CS_ENTRY 0xC02E CS_TXT_IDX_ECDH CS_TXT_IDX_ECDSA CS_TXT_IDX_AES256 CS_TXT_IDX_GCM CS_TXT_IDX_SHA384 CS_TXT_IDX_ CS_TXT_IDX_ CS_TXT_IDX_,
  CS_ENTRY 0xC02F CS_TXT_IDX_TLS CS_TXT_IDX_ECDHE CS_TXT_IDX_RSA CS_TXT_IDX_WITH CS_TXT_IDX_AES CS_TXT_IDX_128 CS_TXT_IDX_GCM CS_TXT_IDX_SHA256,
  CS_ENTRY 0xC02F CS_TXT_IDX_ECDHE CS_TXT_IDX_RSA CS_TXT_IDX_AES128 CS_TXT_IDX_GCM CS_TXT_IDX_SHA256 CS_TXT_IDX_ CS_TXT_IDX_ CS_TXT_IDX_,
  CS_ENTRY 0xC030 CS_TXT_IDX_TLS CS_TXT_IDX_ECDHE CS_TXT_IDX_RSA CS_TXT_IDX_WITH CS_TXT_IDX_AES CS_TXT_IDX_256 CS_TXT_IDX_GCM CS_TXT_IDX_SHA384,
  CS_ENTRY 0xC030 CS_TXT_IDX_ECDHE CS_TXT_IDX_RSA CS_TXT_IDX_AES256 CS_TXT_IDX_GCM CS_TXT_IDX_SHA384 CS_TXT_IDX_ CS_TXT_IDX_ CS_TXT_IDX_,
  CS_ENTRY 0xC031 CS_TXT_IDX_TLS CS_TXT_IDX_ECDH CS_TXT_IDX_RSA CS_TXT_IDX_WITH CS_TXT_IDX_AES CS_TXT_IDX_128 CS_TXT_IDX_GCM CS_TXT_IDX_SHA256,
  CS_ENTRY 0xC031 CS_TXT_IDX_ECDH CS_TXT_IDX_RSA CS_TXT_IDX_AES128 CS_TXT_IDX_GCM CS_TXT_IDX_SHA256 CS_TXT_IDX_ CS_TXT_IDX_ CS_TXT_IDX_,
  CS_ENTRY 0xC032 CS_TXT_IDX_TLS CS_TXT_IDX_ECDH CS_TXT_IDX_RSA CS_TXT_IDX_WITH CS_TXT_IDX_AES CS_TXT_IDX_256 CS_TXT_IDX_GCM CS_TXT_IDX_SHA384,
  CS_ENTRY 0xC032 CS_TXT_IDX_ECDH CS_TXT_IDX_RSA CS_TXT_IDX_AES256 CS_TXT_IDX_GCM CS_TXT_IDX_SHA384 CS_TXT_IDX_ CS_TXT_IDX_ CS_TXT_IDX_,
  CS_ENTRY 0xCCA8 CS_TXT_IDX_TLS CS_TXT_IDX_ECDHE CS_TXT_IDX_RSA CS_TXT_IDX_WITH CS_TXT_IDX_CHACHA20 CS_TXT_IDX_POLY1305 CS_TXT_IDX_SHA256 CS_TXT_IDX_,
  CS_ENTRY 0xCCA8 CS_TXT_IDX_ECDHE CS_TXT_IDX_RSA CS_TXT_IDX_CHACHA20 CS_TXT_IDX_POLY1305 CS_TXT_IDX_ CS_TXT_IDX_ CS_TXT_IDX_ CS_TXT_IDX_,
  CS_ENTRY 0xCCA9 CS_TXT_IDX_TLS CS_TXT_IDX_ECDHE CS_TXT_IDX_ECDSA CS_TXT_IDX_WITH CS_TXT_IDX_CHACHA20 CS_TXT_IDX_POLY1305 CS_TXT_IDX_SHA256 CS_TXT_IDX_,
  CS_ENTRY 0xCCA9 CS_TXT_IDX_ECDHE CS_TXT_IDX_ECDSA CS_TXT_IDX_CHACHA20 CS_TXT_IDX_POLY1305 CS_TXT_IDX_ CS_TXT_IDX_ CS_TXT_IDX_ CS_TXT_IDX_,
  CS_ENTRY 0x0001 CS_TXT_IDX_TLS CS_TXT_IDX_RSA CS_TXT_IDX_WITH CS_TXT_IDX_NULL CS_TXT_IDX_MD5 CS_TXT_IDX_ CS_TXT_IDX_ CS_TXT_IDX_,
  CS_ENTRY 0x0001 CS_TXT_IDX_NULL CS_TXT_IDX_MD5 CS_TXT_IDX_ CS_TXT_IDX_ CS_TXT_IDX_ CS_TXT_IDX_ CS_TXT_IDX_ CS_TXT_IDX_,
  CS_ENTRY 0x0002 CS_TXT_IDX_TLS CS_TXT_IDX_RSA CS_TXT_IDX_WITH CS_TXT_IDX_NULL CS_TXT_IDX_SHA CS_TXT_IDX_ CS_TXT_IDX_ CS_TXT_IDX_,
  CS_ENTRY 0x0002 CS_TXT_IDX_NULL CS_TXT_IDX_SHA CS_TXT_IDX_ CS_TXT_IDX_ CS_TXT_IDX_ CS_TXT_IDX_ CS_TXT_IDX_ CS_TXT_IDX_,
  CS_ENTRY 0x002C CS_TXT_IDX_TLS CS_TXT_IDX_PSK CS_TXT_IDX_WITH CS_TXT_IDX_NULL CS_TXT_IDX_SHA CS_TXT_IDX_ CS_TXT_IDX_ CS_TXT_IDX_,
  CS_ENTRY 0x002C CS_TXT_IDX_PSK CS_TXT_IDX_NULL CS_TXT_IDX_SHA CS_TXT_IDX_ CS_TXT_IDX_ CS_TXT_IDX_ CS_TXT_IDX_ CS_TXT_IDX_,
  CS_ENTRY 0x002D CS_TXT_IDX_TLS CS_TXT_IDX_DHE CS_TXT_IDX_PSK CS_TXT_IDX_WITH CS_TXT_IDX_NULL CS_TXT_IDX_SHA CS_TXT_IDX_ CS_TXT_IDX_,
  CS_ENTRY 0x002D CS_TXT_IDX_DHE CS_TXT_IDX_PSK CS_TXT_IDX_NULL CS_TXT_IDX_SHA CS_TXT_IDX_ CS_TXT_IDX_ CS_TXT_IDX_ CS_TXT_IDX_,
  CS_ENTRY 0x002E CS_TXT_IDX_TLS CS_TXT_IDX_RSA CS_TXT_IDX_PSK CS_TXT_IDX_WITH CS_TXT_IDX_NULL CS_TXT_IDX_SHA CS_TXT_IDX_ CS_TXT_IDX_,
  CS_ENTRY 0x002E CS_TXT_IDX_RSA CS_TXT_IDX_PSK CS_TXT_IDX_NULL CS_TXT_IDX_SHA CS_TXT_IDX_ CS_TXT_IDX_ CS_TXT_IDX_ CS_TXT_IDX_,
  CS_ENTRY 0x0033 CS_TXT_IDX_TLS CS_TXT_IDX_DHE CS_TXT_IDX_RSA CS_TXT_IDX_WITH CS_TXT_IDX_AES CS_TXT_IDX_128 CS_TXT_IDX_CBC CS_TXT_IDX_SHA,
  CS_ENTRY 0x0033 CS_TXT_IDX_DHE CS_TXT_IDX_RSA CS_TXT_IDX_AES128 CS_TXT_IDX_SHA CS_TXT_IDX_ CS_TXT_IDX_ CS_TXT_IDX_ CS_TXT_IDX_,
  CS_ENTRY 0x0039 CS_TXT_IDX_TLS CS_TXT_IDX_DHE CS_TXT_IDX_RSA CS_TXT_IDX_WITH CS_TXT_IDX_AES CS_TXT_IDX_256 CS_TXT_IDX_CBC CS_TXT_IDX_SHA,
  CS_ENTRY 0x0039 CS_TXT_IDX_DHE CS_TXT_IDX_RSA CS_TXT_IDX_AES256 CS_TXT_IDX_SHA CS_TXT_IDX_ CS_TXT_IDX_ CS_TXT_IDX_ CS_TXT_IDX_,
  CS_ENTRY 0x003B CS_TXT_IDX_TLS CS_TXT_IDX_RSA CS_TXT_IDX_WITH CS_TXT_IDX_NULL CS_TXT_IDX_SHA256 CS_TXT_IDX_ CS_TXT_IDX_ CS_TXT_IDX_,
  CS_ENTRY 0x003B CS_TXT_IDX_NULL CS_TXT_IDX_SHA256 CS_TXT_IDX_ CS_TXT_IDX_ CS_TXT_IDX_ CS_TXT_IDX_ CS_TXT_IDX_ CS_TXT_IDX_,
  CS_ENTRY 0x0067 CS_TXT_IDX_TLS CS_TXT_IDX_DHE CS_TXT_IDX_RSA CS_TXT_IDX_WITH CS_TXT_IDX_AES CS_TXT_IDX_128 CS_TXT_IDX_CBC CS_TXT_IDX_SHA256,
  CS_ENTRY 0x0067 CS_TXT_IDX_DHE CS_TXT_IDX_RSA CS_TXT_IDX_AES128 CS_TXT_IDX_SHA256 CS_TXT_IDX_ CS_TXT_IDX_ CS_TXT_IDX_ CS_TXT_IDX_,
  CS_ENTRY 0x006B CS_TXT_IDX_TLS CS_TXT_IDX_DHE CS_TXT_IDX_RSA CS_TXT_IDX_WITH CS_TXT_IDX_AES CS_TXT_IDX_256 CS_TXT_IDX_CBC CS_TXT_IDX_SHA256,
  CS_ENTRY 0x006B CS_TXT_IDX_DHE CS_TXT_IDX_RSA CS_TXT_IDX_AES256 CS_TXT_IDX_SHA256 CS_TXT_IDX_ CS_TXT_IDX_ CS_TXT_IDX_ CS_TXT_IDX_,
  CS_ENTRY 0x008C CS_TXT_IDX_TLS CS_TXT_IDX_PSK CS_TXT_IDX_WITH CS_TXT_IDX_AES CS_TXT_IDX_128 CS_TXT_IDX_CBC CS_TXT_IDX_SHA CS_TXT_IDX_,
  CS_ENTRY 0x008C CS_TXT_IDX_PSK CS_TXT_IDX_AES128 CS_TXT_IDX_CBC CS_TXT_IDX_SHA CS_TXT_IDX_ CS_TXT_IDX_ CS_TXT_IDX_ CS_TXT_IDX_,
  CS_ENTRY 0x008D CS_TXT_IDX_TLS CS_TXT_IDX_PSK CS_TXT_IDX_WITH CS_TXT_IDX_AES CS_TXT_IDX_256 CS_TXT_IDX_CBC CS_TXT_IDX_SHA CS_TXT_IDX_,
  CS_ENTRY 0x008D CS_TXT_IDX_PSK CS_TXT_IDX_AES256 CS_TXT_IDX_CBC CS_TXT_IDX_SHA CS_TXT_IDX_ CS_TXT_IDX_ CS_TXT_IDX_ CS_TXT_IDX_,
  CS_ENTRY 0x0090 CS_TXT_IDX_TLS CS_TXT_IDX_DHE CS_TXT_IDX_PSK CS_TXT_IDX_WITH CS_TXT_IDX_AES CS_TXT_IDX_128 CS_TXT_IDX_CBC CS_TXT_IDX_SHA,
  CS_ENTRY 0x0090 CS_TXT_IDX_DHE CS_TXT_IDX_PSK CS_TXT_IDX_AES128 CS_TXT_IDX_CBC CS_TXT_IDX_SHA CS_TXT_IDX_ CS_TXT_IDX_ CS_TXT_IDX_,
  CS_ENTRY 0x0091 CS_TXT_IDX_TLS CS_TXT_IDX_DHE CS_TXT_IDX_PSK CS_TXT_IDX_WITH CS_TXT_IDX_AES CS_TXT_IDX_256 CS_TXT_IDX_CBC CS_TXT_IDX_SHA,
  CS_ENTRY 0x0091 CS_TXT_IDX_DHE CS_TXT_IDX_PSK CS_TXT_IDX_AES256 CS_TXT_IDX_CBC CS_TXT_IDX_SHA CS_TXT_IDX_ CS_TXT_IDX_ CS_TXT_IDX_,
  CS_ENTRY 0x0094 CS_TXT_IDX_TLS CS_TXT_IDX_RSA CS_TXT_IDX_PSK CS_TXT_IDX_WITH CS_TXT_IDX_AES CS_TXT_IDX_128 CS_TXT_IDX_CBC CS_TXT_IDX_SHA,
  CS_ENTRY 0x0094 CS_TXT_IDX_RSA CS_TXT_IDX_PSK CS_TXT_IDX_AES128 CS_TXT_IDX_CBC CS_TXT_IDX_SHA CS_TXT_IDX_ CS_TXT_IDX_ CS_TXT_IDX_,
  CS_ENTRY 0x0095 CS_TXT_IDX_TLS CS_TXT_IDX_RSA CS_TXT_IDX_PSK CS_TXT_IDX_WITH CS_TXT_IDX_AES CS_TXT_IDX_256 CS_TXT_IDX_CBC CS_TXT_IDX_SHA,
  CS_ENTRY 0x0095 CS_TXT_IDX_RSA CS_TXT_IDX_PSK CS_TXT_IDX_AES256 CS_TXT_IDX_CBC CS_TXT_IDX_SHA CS_TXT_IDX_ CS_TXT_IDX_ CS_TXT_IDX_,
  CS_ENTRY 0x009E CS_TXT_IDX_TLS CS_TXT_IDX_DHE CS_TXT_IDX_RSA CS_TXT_IDX_WITH CS_TXT_IDX_AES CS_TXT_IDX_128 CS_TXT_IDX_GCM CS_TXT_IDX_SHA256,
  CS_ENTRY 0x009E CS_TXT_IDX_DHE CS_TXT_IDX_RSA CS_TXT_IDX_AES128 CS_TXT_IDX_GCM CS_TXT_IDX_SHA256 CS_TXT_IDX_ CS_TXT_IDX_ CS_TXT_IDX_,
  CS_ENTRY 0x009F CS_TXT_IDX_TLS CS_TXT_IDX_DHE CS_TXT_IDX_RSA CS_TXT_IDX_WITH CS_TXT_IDX_AES CS_TXT_IDX_256 CS_TXT_IDX_GCM CS_TXT_IDX_SHA384,
  CS_ENTRY 0x009F CS_TXT_IDX_DHE CS_TXT_IDX_RSA CS_TXT_IDX_AES256 CS_TXT_IDX_GCM CS_TXT_IDX_SHA384 CS_TXT_IDX_ CS_TXT_IDX_ CS_TXT_IDX_,
  CS_ENTRY 0x00A8 CS_TXT_IDX_TLS CS_TXT_IDX_PSK CS_TXT_IDX_WITH CS_TXT_IDX_AES CS_TXT_IDX_128 CS_TXT_IDX_GCM CS_TXT_IDX_SHA256 CS_TXT_IDX_,
  CS_ENTRY 0x00A8 CS_TXT_IDX_PSK CS_TXT_IDX_AES128 CS_TXT_IDX_GCM CS_TXT_IDX_SHA256 CS_TXT_IDX_ CS_TXT_IDX_ CS_TXT_IDX_ CS_TXT_IDX_,
  CS_ENTRY 0x00A9 CS_TXT_IDX_TLS CS_TXT_IDX_PSK CS_TXT_IDX_WITH CS_TXT_IDX_AES CS_TXT_IDX_256 CS_TXT_IDX_GCM CS_TXT_IDX_SHA384 CS_TXT_IDX_,
  CS_ENTRY 0x00A9 CS_TXT_IDX_PSK CS_TXT_IDX_AES256 CS_TXT_IDX_GCM CS_TXT_IDX_SHA384 CS_TXT_IDX_ CS_TXT_IDX_ CS_TXT_IDX_ CS_TXT_IDX_,
  CS_ENTRY 0x00AA CS_TXT_IDX_TLS CS_TXT_IDX_DHE CS_TXT_IDX_PSK CS_TXT_IDX_WITH CS_TXT_IDX_AES CS_TXT_IDX_128 CS_TXT_IDX_GCM CS_TXT_IDX_SHA256,
  CS_ENTRY 0x00AA CS_TXT_IDX_DHE CS_TXT_IDX_PSK CS_TXT_IDX_AES128 CS_TXT_IDX_GCM CS_TXT_IDX_SHA256 CS_TXT_IDX_ CS_TXT_IDX_ CS_TXT_IDX_,
  CS_ENTRY 0x00AB CS_TXT_IDX_TLS CS_TXT_IDX_DHE CS_TXT_IDX_PSK CS_TXT_IDX_WITH CS_TXT_IDX_AES CS_TXT_IDX_256 CS_TXT_IDX_GCM CS_TXT_IDX_SHA384,
  CS_ENTRY 0x00AB CS_TXT_IDX_DHE CS_TXT_IDX_PSK CS_TXT_IDX_AES256 CS_TXT_IDX_GCM CS_TXT_IDX_SHA384 CS_TXT_IDX_ CS_TXT_IDX_ CS_TXT_IDX_,
  CS_ENTRY 0x00AC CS_TXT_IDX_TLS CS_TXT_IDX_RSA CS_TXT_IDX_PSK CS_TXT_IDX_WITH CS_TXT_IDX_AES CS_TXT_IDX_128 CS_TXT_IDX_GCM CS_TXT_IDX_SHA256,
  CS_ENTRY 0x00AC CS_TXT_IDX_RSA CS_TXT_IDX_PSK CS_TXT_IDX_AES128 CS_TXT_IDX_GCM CS_TXT_IDX_SHA256 CS_TXT_IDX_ CS_TXT_IDX_ CS_TXT_IDX_,
  CS_ENTRY 0x00AD CS_TXT_IDX_TLS CS_TXT_IDX_RSA CS_TXT_IDX_PSK CS_TXT_IDX_WITH CS_TXT_IDX_AES CS_TXT_IDX_256 CS_TXT_IDX_GCM CS_TXT_IDX_SHA384,
  CS_ENTRY 0x00AD CS_TXT_IDX_RSA CS_TXT_IDX_PSK CS_TXT_IDX_AES256 CS_TXT_IDX_GCM CS_TXT_IDX_SHA384 CS_TXT_IDX_ CS_TXT_IDX_ CS_TXT_IDX_,
  CS_ENTRY 0x00AE CS_TXT_IDX_TLS CS_TXT_IDX_PSK CS_TXT_IDX_WITH CS_TXT_IDX_AES CS_TXT_IDX_128 CS_TXT_IDX_CBC CS_TXT_IDX_SHA256 CS_TXT_IDX_,
  CS_ENTRY 0x00AE CS_TXT_IDX_PSK CS_TXT_IDX_AES128 CS_TXT_IDX_CBC CS_TXT_IDX_SHA256 CS_TXT_IDX_ CS_TXT_IDX_ CS_TXT_IDX_ CS_TXT_IDX_,
  CS_ENTRY 0x00AF CS_TXT_IDX_TLS CS_TXT_IDX_PSK CS_TXT_IDX_WITH CS_TXT_IDX_AES CS_TXT_IDX_256 CS_TXT_IDX_CBC CS_TXT_IDX_SHA384 CS_TXT_IDX_,
  CS_ENTRY 0x00AF CS_TXT_IDX_PSK CS_TXT_IDX_AES256 CS_TXT_IDX_CBC CS_TXT_IDX_SHA384 CS_TXT_IDX_ CS_TXT_IDX_ CS_TXT_IDX_ CS_TXT_IDX_,
  CS_ENTRY 0x00B0 CS_TXT_IDX_TLS CS_TXT_IDX_PSK CS_TXT_IDX_WITH CS_TXT_IDX_NULL CS_TXT_IDX_SHA256 CS_TXT_IDX_ CS_TXT_IDX_ CS_TXT_IDX_,
  CS_ENTRY 0x00B0 CS_TXT_IDX_PSK CS_TXT_IDX_NULL CS_TXT_IDX_SHA256 CS_TXT_IDX_ CS_TXT_IDX_ CS_TXT_IDX_ CS_TXT_IDX_ CS_TXT_IDX_,
  CS_ENTRY 0x00B1 CS_TXT_IDX_TLS CS_TXT_IDX_PSK CS_TXT_IDX_WITH CS_TXT_IDX_NULL CS_TXT_IDX_SHA384 CS_TXT_IDX_ CS_TXT_IDX_ CS_TXT_IDX_,
  CS_ENTRY 0x00B1 CS_TXT_IDX_PSK CS_TXT_IDX_NULL CS_TXT_IDX_SHA384 CS_TXT_IDX_ CS_TXT_IDX_ CS_TXT_IDX_ CS_TXT_IDX_ CS_TXT_IDX_,
  CS_ENTRY 0x00B2 CS_TXT_IDX_TLS CS_TXT_IDX_DHE CS_TXT_IDX_PSK CS_TXT_IDX_WITH CS_TXT_IDX_AES CS_TXT_IDX_128 CS_TXT_IDX_CBC CS_TXT_IDX_SHA256,
  CS_ENTRY 0x00B2 CS_TXT_IDX_DHE CS_TXT_IDX_PSK CS_TXT_IDX_AES128 CS_TXT_IDX_CBC CS_TXT_IDX_SHA256 CS_TXT_IDX_ CS_TXT_IDX_ CS_TXT_IDX_,
  CS_ENTRY 0x00B3 CS_TXT_IDX_TLS CS_TXT_IDX_DHE CS_TXT_IDX_PSK CS_TXT_IDX_WITH CS_TXT_IDX_AES CS_TXT_IDX_256 CS_TXT_IDX_CBC CS_TXT_IDX_SHA384,
  CS_ENTRY 0x00B3 CS_TXT_IDX_DHE CS_TXT_IDX_PSK CS_TXT_IDX_AES256 CS_TXT_IDX_CBC CS_TXT_IDX_SHA384 CS_TXT_IDX_ CS_TXT_IDX_ CS_TXT_IDX_,
  CS_ENTRY 0x00B4 CS_TXT_IDX_TLS CS_TXT_IDX_DHE CS_TXT_IDX_PSK CS_TXT_IDX_WITH CS_TXT_IDX_NULL CS_TXT_IDX_SHA256 CS_TXT_IDX_ CS_TXT_IDX_,
  CS_ENTRY 0x00B4 CS_TXT_IDX_DHE CS_TXT_IDX_PSK CS_TXT_IDX_NULL CS_TXT_IDX_SHA256 CS_TXT_IDX_ CS_TXT_IDX_ CS_TXT_IDX_ CS_TXT_IDX_,
  CS_ENTRY 0x00B5 CS_TXT_IDX_TLS CS_TXT_IDX_DHE CS_TXT_IDX_PSK CS_TXT_IDX_WITH CS_TXT_IDX_NULL CS_TXT_IDX_SHA384 CS_TXT_IDX_ CS_TXT_IDX_,
  CS_ENTRY 0x00B5 CS_TXT_IDX_DHE CS_TXT_IDX_PSK CS_TXT_IDX_NULL CS_TXT_IDX_SHA384 CS_TXT_IDX_ CS_TXT_IDX_ CS_TXT_IDX_ CS_TXT_IDX_,
  CS_ENTRY 0x00B6 CS_TXT_IDX_TLS CS_TXT_IDX_RSA CS_TXT_IDX_PSK CS_TXT_IDX_WITH CS_TXT_IDX_AES CS_TXT_IDX_128 CS_TXT_IDX_CBC CS_TXT_IDX_SHA256,
  CS_ENTRY 0x00B6 CS_TXT_IDX_RSA CS_TXT_IDX_PSK CS_TXT_IDX_AES128 CS_TXT_IDX_CBC CS_TXT_IDX_SHA256 CS_TXT_IDX_ CS_TXT_IDX_ CS_TXT_IDX_,
  CS_ENTRY 0x00B7 CS_TXT_IDX_TLS CS_TXT_IDX_RSA CS_TXT_IDX_PSK CS_TXT_IDX_WITH CS_TXT_IDX_AES CS_TXT_IDX_256 CS_TXT_IDX_CBC CS_TXT_IDX_SHA384,
  CS_ENTRY 0x00B7 CS_TXT_IDX_RSA CS_TXT_IDX_PSK CS_TXT_IDX_AES256 CS_TXT_IDX_CBC CS_TXT_IDX_SHA384 CS_TXT_IDX_ CS_TXT_IDX_ CS_TXT_IDX_,
  CS_ENTRY 0x00B8 CS_TXT_IDX_TLS CS_TXT_IDX_RSA CS_TXT_IDX_PSK CS_TXT_IDX_WITH CS_TXT_IDX_NULL CS_TXT_IDX_SHA256 CS_TXT_IDX_ CS_TXT_IDX_,
  CS_ENTRY 0x00B8 CS_TXT_IDX_RSA CS_TXT_IDX_PSK CS_TXT_IDX_NULL CS_TXT_IDX_SHA256 CS_TXT_IDX_ CS_TXT_IDX_ CS_TXT_IDX_ CS_TXT_IDX_,
  CS_ENTRY 0x00B9 CS_TXT_IDX_TLS CS_TXT_IDX_RSA CS_TXT_IDX_PSK CS_TXT_IDX_WITH CS_TXT_IDX_NULL CS_TXT_IDX_SHA384 CS_TXT_IDX_ CS_TXT_IDX_,
  CS_ENTRY 0x00B9 CS_TXT_IDX_RSA CS_TXT_IDX_PSK CS_TXT_IDX_NULL CS_TXT_IDX_SHA384 CS_TXT_IDX_ CS_TXT_IDX_ CS_TXT_IDX_ CS_TXT_IDX_,
  CS_ENTRY 0x1301 CS_TXT_IDX_TLS CS_TXT_IDX_AES CS_TXT_IDX_128 CS_TXT_IDX_GCM CS_TXT_IDX_SHA256 CS_TXT_IDX_ CS_TXT_IDX_ CS_TXT_IDX_,
  CS_ENTRY 0x1302 CS_TXT_IDX_TLS CS_TXT_IDX_AES CS_TXT_IDX_256 CS_TXT_IDX_GCM CS_TXT_IDX_SHA384 CS_TXT_IDX_ CS_TXT_IDX_ CS_TXT_IDX_,
  CS_ENTRY 0x1303 CS_TXT_IDX_TLS CS_TXT_IDX_CHACHA20 CS_TXT_IDX_POLY1305 CS_TXT_IDX_SHA256 CS_TXT_IDX_ CS_TXT_IDX_ CS_TXT_IDX_ CS_TXT_IDX_,
  CS_ENTRY 0x1304 CS_TXT_IDX_TLS CS_TXT_IDX_AES CS_TXT_IDX_128 CS_TXT_IDX_CCM CS_TXT_IDX_SHA256 CS_TXT_IDX_ CS_TXT_IDX_ CS_TXT_IDX_,
  CS_ENTRY 0x1305 CS_TXT_IDX_TLS CS_TXT_IDX_AES CS_TXT_IDX_128 CS_TXT_IDX_CCM CS_TXT_IDX_8 CS_TXT_IDX_SHA256 CS_TXT_IDX_ CS_TXT_IDX_,
  CS_ENTRY 0xC001 CS_TXT_IDX_TLS CS_TXT_IDX_ECDH CS_TXT_IDX_ECDSA CS_TXT_IDX_WITH CS_TXT_IDX_NULL CS_TXT_IDX_SHA CS_TXT_IDX_ CS_TXT_IDX_,
  CS_ENTRY 0xC001 CS_TXT_IDX_ECDH CS_TXT_IDX_ECDSA CS_TXT_IDX_NULL CS_TXT_IDX_SHA CS_TXT_IDX_ CS_TXT_IDX_ CS_TXT_IDX_ CS_TXT_IDX_,
  CS_ENTRY 0xC006 CS_TXT_IDX_TLS CS_TXT_IDX_ECDHE CS_TXT_IDX_ECDSA CS_TXT_IDX_WITH CS_TXT_IDX_NULL CS_TXT_IDX_SHA CS_TXT_IDX_ CS_TXT_IDX_,
  CS_ENTRY 0xC006 CS_TXT_IDX_ECDHE CS_TXT_IDX_ECDSA CS_TXT_IDX_NULL CS_TXT_IDX_SHA CS_TXT_IDX_ CS_TXT_IDX_ CS_TXT_IDX_ CS_TXT_IDX_,
  CS_ENTRY 0xC00B CS_TXT_IDX_TLS CS_TXT_IDX_ECDH CS_TXT_IDX_RSA CS_TXT_IDX_WITH CS_TXT_IDX_NULL CS_TXT_IDX_SHA CS_TXT_IDX_ CS_TXT_IDX_,
  CS_ENTRY 0xC00B CS_TXT_IDX_ECDH CS_TXT_IDX_RSA CS_TXT_IDX_NULL CS_TXT_IDX_SHA CS_TXT_IDX_ CS_TXT_IDX_ CS_TXT_IDX_ CS_TXT_IDX_,
  CS_ENTRY 0xC010 CS_TXT_IDX_TLS CS_TXT_IDX_ECDHE CS_TXT_IDX_RSA CS_TXT_IDX_WITH CS_TXT_IDX_NULL CS_TXT_IDX_SHA CS_TXT_IDX_ CS_TXT_IDX_,
  CS_ENTRY 0xC010 CS_TXT_IDX_ECDHE CS_TXT_IDX_RSA CS_TXT_IDX_NULL CS_TXT_IDX_SHA CS_TXT_IDX_ CS_TXT_IDX_ CS_TXT_IDX_ CS_TXT_IDX_,
  CS_ENTRY 0xC035 CS_TXT_IDX_TLS CS_TXT_IDX_ECDHE CS_TXT_IDX_PSK CS_TXT_IDX_WITH CS_TXT_IDX_AES CS_TXT_IDX_128 CS_TXT_IDX_CBC CS_TXT_IDX_SHA,
  CS_ENTRY 0xC035 CS_TXT_IDX_ECDHE CS_TXT_IDX_PSK CS_TXT_IDX_AES128 CS_TXT_IDX_CBC CS_TXT_IDX_SHA CS_TXT_IDX_ CS_TXT_IDX_ CS_TXT_IDX_,
  CS_ENTRY 0xC036 CS_TXT_IDX_TLS CS_TXT_IDX_ECDHE CS_TXT_IDX_PSK CS_TXT_IDX_WITH CS_TXT_IDX_AES CS_TXT_IDX_256 CS_TXT_IDX_CBC CS_TXT_IDX_SHA,
  CS_ENTRY 0xC036 CS_TXT_IDX_ECDHE CS_TXT_IDX_PSK CS_TXT_IDX_AES256 CS_TXT_IDX_CBC CS_TXT_IDX_SHA CS_TXT_IDX_ CS_TXT_IDX_ CS_TXT_IDX_,
  CS_ENTRY 0xCCAB CS_TXT_IDX_TLS CS_TXT_IDX_PSK CS_TXT_IDX_WITH CS_TXT_IDX_CHACHA20 CS_TXT_IDX_POLY1305 CS_TXT_IDX_SHA256 CS_TXT_IDX_ CS_TXT_IDX_,
  CS_ENTRY 0xCCAB CS_TXT_IDX_PSK CS_TXT_IDX_CHACHA20 CS_TXT_IDX_POLY1305 CS_TXT_IDX_ CS_TXT_IDX_ CS_TXT_IDX_ CS_TXT_IDX_ CS_TXT_IDX_,
  CS_ENTRY 0xC09C CS_TXT_IDX_TLS CS_TXT_IDX_RSA CS_TXT_IDX_WITH CS_TXT_IDX_AES CS_TXT_IDX_128 CS_TXT_IDX_CCM CS_TXT_IDX_ CS_TXT_IDX_,
  CS_ENTRY 0xC09C CS_TXT_IDX_AES128 CS_TXT_IDX_CCM CS_TXT_IDX_ CS_TXT_IDX_ CS_TXT_IDX_ CS_TXT_IDX_ CS_TXT_IDX_ CS_TXT_IDX_,
  CS_ENTRY 0xC09D CS_TXT_IDX_TLS CS_TXT_IDX_RSA CS_TXT_IDX_WITH CS_TXT_IDX_AES CS_TXT_IDX_256 CS_TXT_IDX_CCM CS_TXT_IDX_ CS_TXT_IDX_,
  CS_ENTRY 0xC09D CS_TXT_IDX_AES256 CS_TXT_IDX_CCM CS_TXT_IDX_ CS_TXT_IDX_ CS_TXT_IDX_ CS_TXT_IDX_ CS_TXT_IDX_ CS_TXT_IDX_,
  CS_ENTRY 0xC0A0 CS_TXT_IDX_TLS CS_TXT_IDX_RSA CS_TXT_IDX_WITH CS_TXT_IDX_AES CS_TXT_IDX_128 CS_TXT_IDX_CCM CS_TXT_IDX_8 CS_TXT_IDX_,
  CS_ENTRY 0xC0A0 CS_TXT_IDX_AES128 CS_TXT_IDX_CCM8 CS_TXT_IDX_ CS_TXT_IDX_ CS_TXT_IDX_ CS_TXT_IDX_ CS_TXT_IDX_ CS_TXT_IDX_,
  CS_ENTRY 0xC0A1 CS_TXT_IDX_TLS CS_TXT_IDX_RSA CS_TXT_IDX_WITH CS_TXT_IDX_AES CS_TXT_IDX_256 CS_TXT_IDX_CCM CS_TXT_IDX_8 CS_TXT_IDX_,
  CS_ENTRY 0xC0A1 CS_TXT_IDX_AES256 CS_TXT_IDX_CCM8 CS_TXT_IDX_ CS_TXT_IDX_ CS_TXT_IDX_ CS_TXT_IDX_ CS_TXT_IDX_ CS_TXT_IDX_,
  CS_ENTRY 0xC0AC CS_TXT_IDX_TLS CS_TXT_IDX_ECDHE CS_TXT_IDX_ECDSA CS_TXT_IDX_WITH CS_TXT_IDX_AES CS_TXT_IDX_128 CS_TXT_IDX_CCM CS_TXT_IDX_,
  CS_ENTRY 0xC0AC CS_TXT_IDX_ECDHE CS_TXT_IDX_ECDSA CS_TXT_IDX_AES128 CS_TXT_IDX_CCM CS_TXT_IDX_ CS_TXT_IDX_ CS_TXT_IDX_ CS_TXT_IDX_,
  CS_ENTRY 0xC0AD CS_TXT_IDX_TLS CS_TXT_IDX_ECDHE CS_TXT_IDX_ECDSA CS_TXT_IDX_WITH CS_TXT_IDX_AES CS_TXT_IDX_256 CS_TXT_IDX_CCM CS_TXT_IDX_,
  CS_ENTRY 0xC0AD CS_TXT_IDX_ECDHE CS_TXT_IDX_ECDSA CS_TXT_IDX_AES256 CS_TXT_IDX_CCM CS_TXT_IDX_ CS_TXT_IDX_ CS_TXT_IDX_ CS_TXT_IDX_,
  CS_ENTRY 0xC0AE CS_TXT_IDX_TLS CS_TXT_IDX_ECDHE CS_TXT_IDX_ECDSA CS_TXT_IDX_WITH CS_TXT_IDX_AES CS_TXT_IDX_128 CS_TXT_IDX_CCM CS_TXT_IDX_8,
  CS_ENTRY 0xC0AE CS_TXT_IDX_ECDHE CS_TXT_IDX_ECDSA CS_TXT_IDX_AES128 CS_TXT_IDX_CCM8 CS_TXT_IDX_ CS_TXT_IDX_ CS_TXT_IDX_ CS_TXT_IDX_,
  CS_ENTRY 0xC0AF CS_TXT_IDX_TLS CS_TXT_IDX_ECDHE CS_TXT_IDX_ECDSA CS_TXT_IDX_WITH CS_TXT_IDX_AES CS_TXT_IDX_256 CS_TXT_IDX_CCM CS_TXT_IDX_8,
  CS_ENTRY 0xC0AF CS_TXT_IDX_ECDHE CS_TXT_IDX_ECDSA CS_TXT_IDX_AES256 CS_TXT_IDX_CCM8 CS_TXT_IDX_ CS_TXT_IDX_ CS_TXT_IDX_ CS_TXT_IDX_,
  CS_ENTRY 0x0041 CS_TXT_IDX_TLS CS_TXT_IDX_RSA CS_TXT_IDX_WITH CS_TXT_IDX_CAMELLIA CS_TXT_IDX_128 CS_TXT_IDX_CBC CS_TXT_IDX_SHA CS_TXT_IDX_,
  CS_ENTRY 0x0041 CS_TXT_IDX_CAMELLIA128 CS_TXT_IDX_SHA CS_TXT_IDX_ CS_TXT_IDX_ CS_TXT_IDX_ CS_TXT_IDX_ CS_TXT_IDX_ CS_TXT_IDX_,
  CS_ENTRY 0x0045 CS_TXT_IDX_TLS CS_TXT_IDX_DHE CS_TXT_IDX_RSA CS_TXT_IDX_WITH CS_TXT_IDX_CAMELLIA CS_TXT_IDX_128 CS_TXT_IDX_CBC CS_TXT_IDX_SHA,
  CS_ENTRY 0x0045 CS_TXT_IDX_DHE CS_TXT_IDX_RSA CS_TXT_IDX_CAMELLIA128 CS_TXT_IDX_SHA CS_TXT_IDX_ CS_TXT_IDX_ CS_TXT_IDX_ CS_TXT_IDX_,
  CS_ENTRY 0x0084 CS_TXT_IDX_TLS CS_TXT_IDX_RSA CS_TXT_IDX_WITH CS_TXT_IDX_CAMELLIA CS_TXT_IDX_256 CS_TXT_IDX_CBC CS_TXT_IDX_SHA CS_TXT_IDX_,
  CS_ENTRY 0x0084 CS_TXT_IDX_CAMELLIA256 CS_TXT_IDX_SHA CS_TXT_IDX_ CS_TXT_IDX_ CS_TXT_IDX_ CS_TXT_IDX_ CS_TXT_IDX_ CS_TXT_IDX_,
  CS_ENTRY 0x0088 CS_TXT_IDX_TLS CS_TXT_IDX_DHE CS_TXT_IDX_RSA CS_TXT_IDX_WITH CS_TXT_IDX_CAMELLIA CS_TXT_IDX_256 CS_TXT_IDX_CBC CS_TXT_IDX_SHA,
  CS_ENTRY 0x0088 CS_TXT_IDX_DHE CS_TXT_IDX_RSA CS_TXT_IDX_CAMELLIA256 CS_TXT_IDX_SHA CS_TXT_IDX_ CS_TXT_IDX_ CS_TXT_IDX_ CS_TXT_IDX_,
  CS_ENTRY 0x00BA CS_TXT_IDX_TLS CS_TXT_IDX_RSA CS_TXT_IDX_WITH CS_TXT_IDX_CAMELLIA CS_TXT_IDX_128 CS_TXT_IDX_CBC CS_TXT_IDX_SHA256 CS_TXT_IDX_,
  CS_ENTRY 0x00BA CS_TXT_IDX_CAMELLIA128 CS_TXT_IDX_SHA256 CS_TXT_IDX_ CS_TXT_IDX_ CS_TXT_IDX_ CS_TXT_IDX_ CS_TXT_IDX_ CS_TXT_IDX_,
  CS_ENTRY 0x00BE CS_TXT_IDX_TLS CS_TXT_IDX_DHE CS_TXT_IDX_RSA CS_TXT_IDX_WITH CS_TXT_IDX_CAMELLIA CS_TXT_IDX_128 CS_TXT_IDX_CBC CS_TXT_IDX_SHA256,
  CS_ENTRY 0x00BE CS_TXT_IDX_DHE CS_TXT_IDX_RSA CS_TXT_IDX_CAMELLIA128 CS_TXT_IDX_SHA256 CS_TXT_IDX_ CS_TXT_IDX_ CS_TXT_IDX_ CS_TXT_IDX_,
  CS_ENTRY 0x00C0 CS_TXT_IDX_TLS CS_TXT_IDX_RSA CS_TXT_IDX_WITH CS_TXT_IDX_CAMELLIA CS_TXT_IDX_256 CS_TXT_IDX_CBC CS_TXT_IDX_SHA256 CS_TXT_IDX_,
  CS_ENTRY 0x00C0 CS_TXT_IDX_CAMELLIA256 CS_TXT_IDX_SHA256 CS_TXT_IDX_ CS_TXT_IDX_ CS_TXT_IDX_ CS_TXT_IDX_ CS_TXT_IDX_ CS_TXT_IDX_,
  CS_ENTRY 0x00C4 CS_TXT_IDX_TLS CS_TXT_IDX_DHE CS_TXT_IDX_RSA CS_TXT_IDX_WITH CS_TXT_IDX_CAMELLIA CS_TXT_IDX_256 CS_TXT_IDX_CBC CS_TXT_IDX_SHA256,
  CS_ENTRY 0x00C4 CS_TXT_IDX_DHE CS_TXT_IDX_RSA CS_TXT_IDX_CAMELLIA256 CS_TXT_IDX_SHA256 CS_TXT_IDX_ CS_TXT_IDX_ CS_TXT_IDX_ CS_TXT_IDX_,
  CS_ENTRY 0xC037 CS_TXT_IDX_TLS CS_TXT_IDX_ECDHE CS_TXT_IDX_PSK CS_TXT_IDX_WITH CS_TXT_IDX_AES CS_TXT_IDX_128 CS_TXT_IDX_CBC CS_TXT_IDX_SHA256,
  CS_ENTRY 0xC037 CS_TXT_IDX_ECDHE CS_TXT_IDX_PSK CS_TXT_IDX_AES128 CS_TXT_IDX_CBC CS_TXT_IDX_SHA256 CS_TXT_IDX_ CS_TXT_IDX_ CS_TXT_IDX_,
  CS_ENTRY 0xC038 CS_TXT_IDX_TLS CS_TXT_IDX_ECDHE CS_TXT_IDX_PSK CS_TXT_IDX_WITH CS_TXT_IDX_AES CS_TXT_IDX_256 CS_TXT_IDX_CBC CS_TXT_IDX_SHA384,
  CS_ENTRY 0xC038 CS_TXT_IDX_ECDHE CS_TXT_IDX_PSK CS_TXT_IDX_AES256 CS_TXT_IDX_CBC CS_TXT_IDX_SHA384 CS_TXT_IDX_ CS_TXT_IDX_ CS_TXT_IDX_,
  CS_ENTRY 0xC039 CS_TXT_IDX_TLS CS_TXT_IDX_ECDHE CS_TXT_IDX_PSK CS_TXT_IDX_WITH CS_TXT_IDX_NULL CS_TXT_IDX_SHA CS_TXT_IDX_ CS_TXT_IDX_,
  CS_ENTRY 0xC039 CS_TXT_IDX_ECDHE CS_TXT_IDX_PSK CS_TXT_IDX_NULL CS_TXT_IDX_SHA CS_TXT_IDX_ CS_TXT_IDX_ CS_TXT_IDX_ CS_TXT_IDX_,
  CS_ENTRY 0xC03A CS_TXT_IDX_TLS CS_TXT_IDX_ECDHE CS_TXT_IDX_PSK CS_TXT_IDX_WITH CS_TXT_IDX_NULL CS_TXT_IDX_SHA256 CS_TXT_IDX_ CS_TXT_IDX_,
  CS_ENTRY 0xC03A CS_TXT_IDX_ECDHE CS_TXT_IDX_PSK CS_TXT_IDX_NULL CS_TXT_IDX_SHA256 CS_TXT_IDX_ CS_TXT_IDX_ CS_TXT_IDX_ CS_TXT_IDX_,
  CS_ENTRY 0xC03B CS_TXT_IDX_TLS CS_TXT_IDX_ECDHE CS_TXT_IDX_PSK CS_TXT_IDX_WITH CS_TXT_IDX_NULL CS_TXT_IDX_SHA384 CS_TXT_IDX_ CS_TXT_IDX_,
  CS_ENTRY 0xC03B CS_TXT_IDX_ECDHE CS_TXT_IDX_PSK CS_TXT_IDX_NULL CS_TXT_IDX_SHA384 CS_TXT_IDX_ CS_TXT_IDX_ CS_TXT_IDX_ CS_TXT_IDX_,
  CS_ENTRY 0xC03C CS_TXT_IDX_TLS CS_TXT_IDX_RSA CS_TXT_IDX_WITH CS_TXT_IDX_ARIA CS_TXT_IDX_128 CS_TXT_IDX_CBC CS_TXT_IDX_SHA256 CS_TXT_IDX_,
  CS_ENTRY 0xC03C CS_TXT_IDX_ARIA128 CS_TXT_IDX_SHA256 CS_TXT_IDX_ CS_TXT_IDX_ CS_TXT_IDX_ CS_TXT_IDX_ CS_TXT_IDX_ CS_TXT_IDX_,
  CS_ENTRY 0xC03D CS_TXT_IDX_TLS CS_TXT_IDX_RSA CS_TXT_IDX_WITH CS_TXT_IDX_ARIA CS_TXT_IDX_256 CS_TXT_IDX_CBC CS_TXT_IDX_SHA384 CS_TXT_IDX_,
  CS_ENTRY 0xC03D CS_TXT_IDX_ARIA256 CS_TXT_IDX_SHA384 CS_TXT_IDX_ CS_TXT_IDX_ CS_TXT_IDX_ CS_TXT_IDX_ CS_TXT_IDX_ CS_TXT_IDX_,
  CS_ENTRY 0xC044 CS_TXT_IDX_TLS CS_TXT_IDX_DHE CS_TXT_IDX_RSA CS_TXT_IDX_WITH CS_TXT_IDX_ARIA CS_TXT_IDX_128 CS_TXT_IDX_CBC CS_TXT_IDX_SHA256,
  CS_ENTRY 0xC044 CS_TXT_IDX_DHE CS_TXT_IDX_RSA CS_TXT_IDX_ARIA128 CS_TXT_IDX_SHA256 CS_TXT_IDX_ CS_TXT_IDX_ CS_TXT_IDX_ CS_TXT_IDX_,
  CS_ENTRY 0xC045 CS_TXT_IDX_TLS CS_TXT_IDX_DHE CS_TXT_IDX_RSA CS_TXT_IDX_WITH CS_TXT_IDX_ARIA CS_TXT_IDX_256 CS_TXT_IDX_CBC CS_TXT_IDX_SHA384,
  CS_ENTRY 0xC045 CS_TXT_IDX_DHE CS_TXT_IDX_RSA CS_TXT_IDX_ARIA256 CS_TXT_IDX_SHA384 CS_TXT_IDX_ CS_TXT_IDX_ CS_TXT_IDX_ CS_TXT_IDX_,
  CS_ENTRY 0xC048 CS_TXT_IDX_TLS CS_TXT_IDX_ECDHE CS_TXT_IDX_ECDSA CS_TXT_IDX_WITH CS_TXT_IDX_ARIA CS_TXT_IDX_128 CS_TXT_IDX_CBC CS_TXT_IDX_SHA256,
  CS_ENTRY 0xC048 CS_TXT_IDX_ECDHE CS_TXT_IDX_ECDSA CS_TXT_IDX_ARIA128 CS_TXT_IDX_SHA256 CS_TXT_IDX_ CS_TXT_IDX_ CS_TXT_IDX_ CS_TXT_IDX_,
  CS_ENTRY 0xC049 CS_TXT_IDX_TLS CS_TXT_IDX_ECDHE CS_TXT_IDX_ECDSA CS_TXT_IDX_WITH CS_TXT_IDX_ARIA CS_TXT_IDX_256 CS_TXT_IDX_CBC CS_TXT_IDX_SHA384,
  CS_ENTRY 0xC049 CS_TXT_IDX_ECDHE CS_TXT_IDX_ECDSA CS_TXT_IDX_ARIA256 CS_TXT_IDX_SHA384 CS_TXT_IDX_ CS_TXT_IDX_ CS_TXT_IDX_ CS_TXT_IDX_,
  CS_ENTRY 0xC04A CS_TXT_IDX_TLS CS_TXT_IDX_ECDH CS_TXT_IDX_ECDSA CS_TXT_IDX_WITH CS_TXT_IDX_ARIA CS_TXT_IDX_128 CS_TXT_IDX_CBC CS_TXT_IDX_SHA256,
  CS_ENTRY 0xC04A CS_TXT_IDX_ECDH CS_TXT_IDX_ECDSA CS_TXT_IDX_ARIA128 CS_TXT_IDX_SHA256 CS_TXT_IDX_ CS_TXT_IDX_ CS_TXT_IDX_ CS_TXT_IDX_,
  CS_ENTRY 0xC04B CS_TXT_IDX_TLS CS_TXT_IDX_ECDH CS_TXT_IDX_ECDSA CS_TXT_IDX_WITH CS_TXT_IDX_ARIA CS_TXT_IDX_256 CS_TXT_IDX_CBC CS_TXT_IDX_SHA384,
  CS_ENTRY 0xC04B CS_TXT_IDX_ECDH CS_TXT_IDX_ECDSA CS_TXT_IDX_ARIA256 CS_TXT_IDX_SHA384 CS_TXT_IDX_ CS_TXT_IDX_ CS_TXT_IDX_ CS_TXT_IDX_,
  CS_ENTRY 0xC04C CS_TXT_IDX_TLS CS_TXT_IDX_ECDHE CS_TXT_IDX_RSA CS_TXT_IDX_WITH CS_TXT_IDX_ARIA CS_TXT_IDX_128 CS_TXT_IDX_CBC CS_TXT_IDX_SHA256,
  CS_ENTRY 0xC04C CS_TXT_IDX_ECDHE CS_TXT_IDX_ARIA128 CS_TXT_IDX_SHA256 CS_TXT_IDX_ CS_TXT_IDX_ CS_TXT_IDX_ CS_TXT_IDX_ CS_TXT_IDX_,
  CS_ENTRY 0xC04D CS_TXT_IDX_TLS CS_TXT_IDX_ECDHE CS_TXT_IDX_RSA CS_TXT_IDX_WITH CS_TXT_IDX_ARIA CS_TXT_IDX_256 CS_TXT_IDX_CBC CS_TXT_IDX_SHA384,
  CS_ENTRY 0xC04D CS_TXT_IDX_ECDHE CS_TXT_IDX_ARIA256 CS_TXT_IDX_SHA384 CS_TXT_IDX_ CS_TXT_IDX_ CS_TXT_IDX_ CS_TXT_IDX_ CS_TXT_IDX_,
  CS_ENTRY 0xC04E CS_TXT_IDX_TLS CS_TXT_IDX_ECDH CS_TXT_IDX_RSA CS_TXT_IDX_WITH CS_TXT_IDX_ARIA CS_TXT_IDX_128 CS_TXT_IDX_CBC CS_TXT_IDX_SHA256,
  CS_ENTRY 0xC04E CS_TXT_IDX_ECDH CS_TXT_IDX_ARIA128 CS_TXT_IDX_SHA256 CS_TXT_IDX_ CS_TXT_IDX_ CS_TXT_IDX_ CS_TXT_IDX_ CS_TXT_IDX_,
  CS_ENTRY 0xC04F CS_TXT_IDX_TLS CS_TXT_IDX_ECDH CS_TXT_IDX_RSA CS_TXT_IDX_WITH CS_TXT_IDX_ARIA CS_TXT_IDX_256 CS_TXT_IDX_CBC CS_TXT_IDX_SHA384,
  CS_ENTRY 0xC04F CS_TXT_IDX_ECDH CS_TXT_IDX_ARIA256 CS_TXT_IDX_SHA384 CS_TXT_IDX_ CS_TXT_IDX_ CS_TXT_IDX_ CS_TXT_IDX_ CS_TXT_IDX_,
  CS_ENTRY 0xC050 CS_TXT_IDX_TLS CS_TXT_IDX_RSA CS_TXT_IDX_WITH CS_TXT_IDX_ARIA CS_TXT_IDX_128 CS_TXT_IDX_GCM CS_TXT_IDX_SHA256 CS_TXT_IDX_,
  CS_ENTRY 0xC050 CS_TXT_IDX_ARIA128 CS_TXT_IDX_GCM CS_TXT_IDX_SHA256 CS_TXT_IDX_ CS_TXT_IDX_ CS_TXT_IDX_ CS_TXT_IDX_ CS_TXT_IDX_,
  CS_ENTRY 0xC051 CS_TXT_IDX_TLS CS_TXT_IDX_RSA CS_TXT_IDX_WITH CS_TXT_IDX_ARIA CS_TXT_IDX_256 CS_TXT_IDX_GCM CS_TXT_IDX_SHA384 CS_TXT_IDX_,
  CS_ENTRY 0xC051 CS_TXT_IDX_ARIA256 CS_TXT_IDX_GCM CS_TXT_IDX_SHA384 CS_TXT_IDX_ CS_TXT_IDX_ CS_TXT_IDX_ CS_TXT_IDX_ CS_TXT_IDX_,
  CS_ENTRY 0xC052 CS_TXT_IDX_TLS CS_TXT_IDX_DHE CS_TXT_IDX_RSA CS_TXT_IDX_WITH CS_TXT_IDX_ARIA CS_TXT_IDX_128 CS_TXT_IDX_GCM CS_TXT_IDX_SHA256,
  CS_ENTRY 0xC052 CS_TXT_IDX_DHE CS_TXT_IDX_RSA CS_TXT_IDX_ARIA128 CS_TXT_IDX_GCM CS_TXT_IDX_SHA256 CS_TXT_IDX_ CS_TXT_IDX_ CS_TXT_IDX_,
  CS_ENTRY 0xC053 CS_TXT_IDX_TLS CS_TXT_IDX_DHE CS_TXT_IDX_RSA CS_TXT_IDX_WITH CS_TXT_IDX_ARIA CS_TXT_IDX_256 CS_TXT_IDX_GCM CS_TXT_IDX_SHA384,
  CS_ENTRY 0xC053 CS_TXT_IDX_DHE CS_TXT_IDX_RSA CS_TXT_IDX_ARIA256 CS_TXT_IDX_GCM CS_TXT_IDX_SHA384 CS_TXT_IDX_ CS_TXT_IDX_ CS_TXT_IDX_,
  CS_ENTRY 0xC05C CS_TXT_IDX_TLS CS_TXT_IDX_ECDHE CS_TXT_IDX_ECDSA CS_TXT_IDX_WITH CS_TXT_IDX_ARIA CS_TXT_IDX_128 CS_TXT_IDX_GCM CS_TXT_IDX_SHA256,
  CS_ENTRY 0xC05C CS_TXT_IDX_ECDHE CS_TXT_IDX_ECDSA CS_TXT_IDX_ARIA128 CS_TXT_IDX_GCM CS_TXT_IDX_SHA256 CS_TXT_IDX_ CS_TXT_IDX_ CS_TXT_IDX_,
  CS_ENTRY 0xC05D CS_TXT_IDX_TLS CS_TXT_IDX_ECDHE CS_TXT_IDX_ECDSA CS_TXT_IDX_WITH CS_TXT_IDX_ARIA CS_TXT_IDX_256 CS_TXT_IDX_GCM CS_TXT_IDX_SHA384,
  CS_ENTRY 0xC05D CS_TXT_IDX_ECDHE CS_TXT_IDX_ECDSA CS_TXT_IDX_ARIA256 CS_TXT_IDX_GCM CS_TXT_IDX_SHA384 CS_TXT_IDX_ CS_TXT_IDX_ CS_TXT_IDX_,
  CS_ENTRY 0xC05E CS_TXT_IDX_TLS CS_TXT_IDX_ECDH CS_TXT_IDX_ECDSA CS_TXT_IDX_WITH CS_TXT_IDX_ARIA CS_TXT_IDX_128 CS_TXT_IDX_GCM CS_TXT_IDX_SHA256,
  CS_ENTRY 0xC05E CS_TXT_IDX_ECDH CS_TXT_IDX_ECDSA CS_TXT_IDX_ARIA128 CS_TXT_IDX_GCM CS_TXT_IDX_SHA256 CS_TXT_IDX_ CS_TXT_IDX_ CS_TXT_IDX_,
  CS_ENTRY 0xC05F CS_TXT_IDX_TLS CS_TXT_IDX_ECDH CS_TXT_IDX_ECDSA CS_TXT_IDX_WITH CS_TXT_IDX_ARIA CS_TXT_IDX_256 CS_TXT_IDX_GCM CS_TXT_IDX_SHA384,
  CS_ENTRY 0xC05F CS_TXT_IDX_ECDH CS_TXT_IDX_ECDSA CS_TXT_IDX_ARIA256 CS_TXT_IDX_GCM CS_TXT_IDX_SHA384 CS_TXT_IDX_ CS_TXT_IDX_ CS_TXT_IDX_,
  CS_ENTRY 0xC060 CS_TXT_IDX_TLS CS_TXT_IDX_ECDHE CS_TXT_IDX_RSA CS_TXT_IDX_WITH CS_TXT_IDX_ARIA CS_TXT_IDX_128 CS_TXT_IDX_GCM CS_TXT_IDX_SHA256,
  CS_ENTRY 0xC060 CS_TXT_IDX_ECDHE CS_TXT_IDX_ARIA128 CS_TXT_IDX_GCM CS_TXT_IDX_SHA256 CS_TXT_IDX_ CS_TXT_IDX_ CS_TXT_IDX_ CS_TXT_IDX_,
  CS_ENTRY 0xC061 CS_TXT_IDX_TLS CS_TXT_IDX_ECDHE CS_TXT_IDX_RSA CS_TXT_IDX_WITH CS_TXT_IDX_ARIA CS_TXT_IDX_256 CS_TXT_IDX_GCM CS_TXT_IDX_SHA384,
  CS_ENTRY 0xC061 CS_TXT_IDX_ECDHE CS_TXT_IDX_ARIA256 CS_TXT_IDX_GCM CS_TXT_IDX_SHA384 CS_TXT_IDX_ CS_TXT_IDX_ CS_TXT_IDX_ CS_TXT_IDX_,
  CS_ENTRY 0xC062 CS_TXT_IDX_TLS CS_TXT_IDX_ECDH CS_TXT_IDX_RSA CS_TXT_IDX_WITH CS_TXT_IDX_ARIA CS_TXT_IDX_128 CS_TXT_IDX_GCM CS_TXT_IDX_SHA256,
  CS_ENTRY 0xC062 CS_TXT_IDX_ECDH CS_TXT_IDX_ARIA128 CS_TXT_IDX_GCM CS_TXT_IDX_SHA256 CS_TXT_IDX_ CS_TXT_IDX_ CS_TXT_IDX_ CS_TXT_IDX_,
  CS_ENTRY 0xC063 CS_TXT_IDX_TLS CS_TXT_IDX_ECDH CS_TXT_IDX_RSA CS_TXT_IDX_WITH CS_TXT_IDX_ARIA CS_TXT_IDX_256 CS_TXT_IDX_GCM CS_TXT_IDX_SHA384,
  CS_ENTRY 0xC063 CS_TXT_IDX_ECDH CS_TXT_IDX_ARIA256 CS_TXT_IDX_GCM CS_TXT_IDX_SHA384 CS_TXT_IDX_ CS_TXT_IDX_ CS_TXT_IDX_ CS_TXT_IDX_,
  CS_ENTRY 0xC064 CS_TXT_IDX_TLS CS_TXT_IDX_PSK CS_TXT_IDX_WITH CS_TXT_IDX_ARIA CS_TXT_IDX_128 CS_TXT_IDX_CBC CS_TXT_IDX_SHA256 CS_TXT_IDX_,
  CS_ENTRY 0xC064 CS_TXT_IDX_PSK CS_TXT_IDX_ARIA128 CS_TXT_IDX_SHA256 CS_TXT_IDX_ CS_TXT_IDX_ CS_TXT_IDX_ CS_TXT_IDX_ CS_TXT_IDX_,
  CS_ENTRY 0xC065 CS_TXT_IDX_TLS CS_TXT_IDX_PSK CS_TXT_IDX_WITH CS_TXT_IDX_ARIA CS_TXT_IDX_256 CS_TXT_IDX_CBC CS_TXT_IDX_SHA384 CS_TXT_IDX_,
  CS_ENTRY 0xC065 CS_TXT_IDX_PSK CS_TXT_IDX_ARIA256 CS_TXT_IDX_SHA384 CS_TXT_IDX_ CS_TXT_IDX_ CS_TXT_IDX_ CS_TXT_IDX_ CS_TXT_IDX_,
  CS_ENTRY 0xC066 CS_TXT_IDX_TLS CS_TXT_IDX_DHE CS_TXT_IDX_PSK CS_TXT_IDX_WITH CS_TXT_IDX_ARIA CS_TXT_IDX_128 CS_TXT_IDX_CBC CS_TXT_IDX_SHA256,
  CS_ENTRY 0xC066 CS_TXT_IDX_DHE CS_TXT_IDX_PSK CS_TXT_IDX_ARIA128 CS_TXT_IDX_SHA256 CS_TXT_IDX_ CS_TXT_IDX_ CS_TXT_IDX_ CS_TXT_IDX_,
  CS_ENTRY 0xC067 CS_TXT_IDX_TLS CS_TXT_IDX_DHE CS_TXT_IDX_PSK CS_TXT_IDX_WITH CS_TXT_IDX_ARIA CS_TXT_IDX_256 CS_TXT_IDX_CBC CS_TXT_IDX_SHA384,
  CS_ENTRY 0xC067 CS_TXT_IDX_DHE CS_TXT_IDX_PSK CS_TXT_IDX_ARIA256 CS_TXT_IDX_SHA384 CS_TXT_IDX_ CS_TXT_IDX_ CS_TXT_IDX_ CS_TXT_IDX_,
  CS_ENTRY 0xC068 CS_TXT_IDX_TLS CS_TXT_IDX_RSA CS_TXT_IDX_PSK CS_TXT_IDX_WITH CS_TXT_IDX_ARIA CS_TXT_IDX_128 CS_TXT_IDX_CBC CS_TXT_IDX_SHA256,
  CS_ENTRY 0xC068 CS_TXT_IDX_RSA CS_TXT_IDX_PSK CS_TXT_IDX_ARIA128 CS_TXT_IDX_SHA256 CS_TXT_IDX_ CS_TXT_IDX_ CS_TXT_IDX_ CS_TXT_IDX_,
  CS_ENTRY 0xC069 CS_TXT_IDX_TLS CS_TXT_IDX_RSA CS_TXT_IDX_PSK CS_TXT_IDX_WITH CS_TXT_IDX_ARIA CS_TXT_IDX_256 CS_TXT_IDX_CBC CS_TXT_IDX_SHA384,
  CS_ENTRY 0xC069 CS_TXT_IDX_RSA CS_TXT_IDX_PSK CS_TXT_IDX_ARIA256 CS_TXT_IDX_SHA384 CS_TXT_IDX_ CS_TXT_IDX_ CS_TXT_IDX_ CS_TXT_IDX_,
  CS_ENTRY 0xC06A CS_TXT_IDX_TLS CS_TXT_IDX_PSK CS_TXT_IDX_WITH CS_TXT_IDX_ARIA CS_TXT_IDX_128 CS_TXT_IDX_GCM CS_TXT_IDX_SHA256 CS_TXT_IDX_,
  CS_ENTRY 0xC06A CS_TXT_IDX_PSK CS_TXT_IDX_ARIA128 CS_TXT_IDX_GCM CS_TXT_IDX_SHA256 CS_TXT_IDX_ CS_TXT_IDX_ CS_TXT_IDX_ CS_TXT_IDX_,
  CS_ENTRY 0xC06B CS_TXT_IDX_TLS CS_TXT_IDX_PSK CS_TXT_IDX_WITH CS_TXT_IDX_ARIA CS_TXT_IDX_256 CS_TXT_IDX_GCM CS_TXT_IDX_SHA384 CS_TXT_IDX_,
  CS_ENTRY 0xC06B CS_TXT_IDX_PSK CS_TXT_IDX_ARIA256 CS_TXT_IDX_GCM CS_TXT_IDX_SHA384 CS_TXT_IDX_ CS_TXT_IDX_ CS_TXT_IDX_ CS_TXT_IDX_,
  CS_ENTRY 0xC06C CS_TXT_IDX_TLS CS_TXT_IDX_DHE CS_TXT_IDX_PSK CS_TXT_IDX_WITH CS_TXT_IDX_ARIA CS_TXT_IDX_128 CS_TXT_IDX_GCM CS_TXT_IDX_SHA256,
  CS_ENTRY 0xC06C CS_TXT_IDX_DHE CS_TXT_IDX_PSK CS_TXT_IDX_ARIA128 CS_TXT_IDX_GCM CS_TXT_IDX_SHA256 CS_TXT_IDX_ CS_TXT_IDX_ CS_TXT_IDX_,
  CS_ENTRY 0xC06D CS_TXT_IDX_TLS CS_TXT_IDX_DHE CS_TXT_IDX_PSK CS_TXT_IDX_WITH CS_TXT_IDX_ARIA CS_TXT_IDX_256 CS_TXT_IDX_GCM CS_TXT_IDX_SHA384,
  CS_ENTRY 0xC06D CS_TXT_IDX_DHE CS_TXT_IDX_PSK CS_TXT_IDX_ARIA256 CS_TXT_IDX_GCM CS_TXT_IDX_SHA384 CS_TXT_IDX_ CS_TXT_IDX_ CS_TXT_IDX_,
  CS_ENTRY 0xC06E CS_TXT_IDX_TLS CS_TXT_IDX_RSA CS_TXT_IDX_PSK CS_TXT_IDX_WITH CS_TXT_IDX_ARIA CS_TXT_IDX_128 CS_TXT_IDX_GCM CS_TXT_IDX_SHA256,
  CS_ENTRY 0xC06E CS_TXT_IDX_RSA CS_TXT_IDX_PSK CS_TXT_IDX_ARIA128 CS_TXT_IDX_GCM CS_TXT_IDX_SHA256 CS_TXT_IDX_ CS_TXT_IDX_ CS_TXT_IDX_,
  CS_ENTRY 0xC06F CS_TXT_IDX_TLS CS_TXT_IDX_RSA CS_TXT_IDX_PSK CS_TXT_IDX_WITH CS_TXT_IDX_ARIA CS_TXT_IDX_256 CS_TXT_IDX_GCM CS_TXT_IDX_SHA384,
  CS_ENTRY 0xC06F CS_TXT_IDX_RSA CS_TXT_IDX_PSK CS_TXT_IDX_ARIA256 CS_TXT_IDX_GCM CS_TXT_IDX_SHA384 CS_TXT_IDX_ CS_TXT_IDX_ CS_TXT_IDX_,
  CS_ENTRY 0xC070 CS_TXT_IDX_TLS CS_TXT_IDX_ECDHE CS_TXT_IDX_PSK CS_TXT_IDX_WITH CS_TXT_IDX_ARIA CS_TXT_IDX_128 CS_TXT_IDX_CBC CS_TXT_IDX_SHA256,
  CS_ENTRY 0xC070 CS_TXT_IDX_ECDHE CS_TXT_IDX_PSK CS_TXT_IDX_ARIA128 CS_TXT_IDX_SHA256 CS_TXT_IDX_ CS_TXT_IDX_ CS_TXT_IDX_ CS_TXT_IDX_,
  CS_ENTRY 0xC071 CS_TXT_IDX_TLS CS_TXT_IDX_ECDHE CS_TXT_IDX_PSK CS_TXT_IDX_WITH CS_TXT_IDX_ARIA CS_TXT_IDX_256 CS_TXT_IDX_CBC CS_TXT_IDX_SHA384,
  CS_ENTRY 0xC071 CS_TXT_IDX_ECDHE CS_TXT_IDX_PSK CS_TXT_IDX_ARIA256 CS_TXT_IDX_SHA384 CS_TXT_IDX_ CS_TXT_IDX_ CS_TXT_IDX_ CS_TXT_IDX_,
  CS_ENTRY 0xC072 CS_TXT_IDX_TLS CS_TXT_IDX_ECDHE CS_TXT_IDX_ECDSA CS_TXT_IDX_WITH CS_TXT_IDX_CAMELLIA CS_TXT_IDX_128 CS_TXT_IDX_CBC CS_TXT_IDX_SHA256,
  CS_ENTRY 0xC072 CS_TXT_IDX_ECDHE CS_TXT_IDX_ECDSA CS_TXT_IDX_CAMELLIA128 CS_TXT_IDX_SHA256 CS_TXT_IDX_ CS_TXT_IDX_ CS_TXT_IDX_ CS_TXT_IDX_,
  CS_ENTRY 0xC073 CS_TXT_IDX_TLS CS_TXT_IDX_ECDHE CS_TXT_IDX_ECDSA CS_TXT_IDX_WITH CS_TXT_IDX_CAMELLIA CS_TXT_IDX_256 CS_TXT_IDX_CBC CS_TXT_IDX_SHA384,
  CS_ENTRY 0xC073 CS_TXT_IDX_ECDHE CS_TXT_IDX_ECDSA CS_TXT_IDX_CAMELLIA256 CS_TXT_IDX_SHA384 CS_TXT_IDX_ CS_TXT_IDX_ CS_TXT_IDX_ CS_TXT_IDX_,
  CS_ENTRY 0xC074 CS_TXT_IDX_TLS CS_TXT_IDX_ECDH CS_TXT_IDX_ECDSA CS_TXT_IDX_WITH CS_TXT_IDX_CAMELLIA CS_TXT_IDX_128 CS_TXT_IDX_CBC CS_TXT_IDX_SHA256,
  CS_ENTRY 0xC074 CS_TXT_IDX_ECDH CS_TXT_IDX_ECDSA CS_TXT_IDX_CAMELLIA128 CS_TXT_IDX_SHA256 CS_TXT_IDX_ CS_TXT_IDX_ CS_TXT_IDX_ CS_TXT_IDX_,
  CS_ENTRY 0xC075 CS_TXT_IDX_TLS CS_TXT_IDX_ECDH CS_TXT_IDX_ECDSA CS_TXT_IDX_WITH CS_TXT_IDX_CAMELLIA CS_TXT_IDX_256 CS_TXT_IDX_CBC CS_TXT_IDX_SHA384,
  CS_ENTRY 0xC075 CS_TXT_IDX_ECDH CS_TXT_IDX_ECDSA CS_TXT_IDX_CAMELLIA256 CS_TXT_IDX_SHA384 CS_TXT_IDX_ CS_TXT_IDX_ CS_TXT_IDX_ CS_TXT_IDX_,
  CS_ENTRY 0xC076 CS_TXT_IDX_TLS CS_TXT_IDX_ECDHE CS_TXT_IDX_RSA CS_TXT_IDX_WITH CS_TXT_IDX_CAMELLIA CS_TXT_IDX_128 CS_TXT_IDX_CBC CS_TXT_IDX_SHA256,
  CS_ENTRY 0xC076 CS_TXT_IDX_ECDHE CS_TXT_IDX_RSA CS_TXT_IDX_CAMELLIA128 CS_TXT_IDX_SHA256 CS_TXT_IDX_ CS_TXT_IDX_ CS_TXT_IDX_ CS_TXT_IDX_,
  CS_ENTRY 0xC077 CS_TXT_IDX_TLS CS_TXT_IDX_ECDHE CS_TXT_IDX_RSA CS_TXT_IDX_WITH CS_TXT_IDX_CAMELLIA CS_TXT_IDX_256 CS_TXT_IDX_CBC CS_TXT_IDX_SHA384,
  CS_ENTRY 0xC077 CS_TXT_IDX_ECDHE CS_TXT_IDX_RSA CS_TXT_IDX_CAMELLIA256 CS_TXT_IDX_SHA384 CS_TXT_IDX_ CS_TXT_IDX_ CS_TXT_IDX_ CS_TXT_IDX_,
  CS_ENTRY 0xC078 CS_TXT_IDX_TLS CS_TXT_IDX_ECDH CS_TXT_IDX_RSA CS_TXT_IDX_WITH CS_TXT_IDX_CAMELLIA CS_TXT_IDX_128 CS_TXT_IDX_CBC CS_TXT_IDX_SHA256,
  CS_ENTRY 0xC078 CS_TXT_IDX_ECDH CS_TXT_IDX_CAMELLIA128 CS_TXT_IDX_SHA256 CS_TXT_IDX_ CS_TXT_IDX_ CS_TXT_IDX_ CS_TXT_IDX_ CS_TXT_IDX_,
  CS_ENTRY 0xC079 CS_TXT_IDX_TLS CS_TXT_IDX_ECDH CS_TXT_IDX_RSA CS_TXT_IDX_WITH CS_TXT_IDX_CAMELLIA CS_TXT_IDX_256 CS_TXT_IDX_CBC CS_TXT_IDX_SHA384,
  CS_ENTRY 0xC079 CS_TXT_IDX_ECDH CS_TXT_IDX_CAMELLIA256 CS_TXT_IDX_SHA384 CS_TXT_IDX_ CS_TXT_IDX_ CS_TXT_IDX_ CS_TXT_IDX_ CS_TXT_IDX_,
  CS_ENTRY 0xC07A CS_TXT_IDX_TLS CS_TXT_IDX_RSA CS_TXT_IDX_WITH CS_TXT_IDX_CAMELLIA CS_TXT_IDX_128 CS_TXT_IDX_GCM CS_TXT_IDX_SHA256 CS_TXT_IDX_,
  CS_ENTRY 0xC07A CS_TXT_IDX_CAMELLIA128 CS_TXT_IDX_GCM CS_TXT_IDX_SHA256 CS_TXT_IDX_ CS_TXT_IDX_ CS_TXT_IDX_ CS_TXT_IDX_ CS_TXT_IDX_,
  CS_ENTRY 0xC07B CS_TXT_IDX_TLS CS_TXT_IDX_RSA CS_TXT_IDX_WITH CS_TXT_IDX_CAMELLIA CS_TXT_IDX_256 CS_TXT_IDX_GCM CS_TXT_IDX_SHA384 CS_TXT_IDX_,
  CS_ENTRY 0xC07B CS_TXT_IDX_CAMELLIA256 CS_TXT_IDX_GCM CS_TXT_IDX_SHA384 CS_TXT_IDX_ CS_TXT_IDX_ CS_TXT_IDX_ CS_TXT_IDX_ CS_TXT_IDX_,
  CS_ENTRY 0xC07C CS_TXT_IDX_TLS CS_TXT_IDX_DHE CS_TXT_IDX_RSA CS_TXT_IDX_WITH CS_TXT_IDX_CAMELLIA CS_TXT_IDX_128 CS_TXT_IDX_GCM CS_TXT_IDX_SHA256,
  CS_ENTRY 0xC07C CS_TXT_IDX_DHE CS_TXT_IDX_RSA CS_TXT_IDX_CAMELLIA128 CS_TXT_IDX_GCM CS_TXT_IDX_SHA256 CS_TXT_IDX_ CS_TXT_IDX_ CS_TXT_IDX_,
  CS_ENTRY 0xC07D CS_TXT_IDX_TLS CS_TXT_IDX_DHE CS_TXT_IDX_RSA CS_TXT_IDX_WITH CS_TXT_IDX_CAMELLIA CS_TXT_IDX_256 CS_TXT_IDX_GCM CS_TXT_IDX_SHA384,
  CS_ENTRY 0xC07D CS_TXT_IDX_DHE CS_TXT_IDX_RSA CS_TXT_IDX_CAMELLIA256 CS_TXT_IDX_GCM CS_TXT_IDX_SHA384 CS_TXT_IDX_ CS_TXT_IDX_ CS_TXT_IDX_,
  CS_ENTRY 0xC086 CS_TXT_IDX_TLS CS_TXT_IDX_ECDHE CS_TXT_IDX_ECDSA CS_TXT_IDX_WITH CS_TXT_IDX_CAMELLIA CS_TXT_IDX_128 CS_TXT_IDX_GCM CS_TXT_IDX_SHA256,
  CS_ENTRY 0xC086 CS_TXT_IDX_ECDHE CS_TXT_IDX_ECDSA CS_TXT_IDX_CAMELLIA128 CS_TXT_IDX_GCM CS_TXT_IDX_SHA256 CS_TXT_IDX_ CS_TXT_IDX_ CS_TXT_IDX_,
  CS_ENTRY 0xC087 CS_TXT_IDX_TLS CS_TXT_IDX_ECDHE CS_TXT_IDX_ECDSA CS_TXT_IDX_WITH CS_TXT_IDX_CAMELLIA CS_TXT_IDX_256 CS_TXT_IDX_GCM CS_TXT_IDX_SHA384,
  CS_ENTRY 0xC087 CS_TXT_IDX_ECDHE CS_TXT_IDX_ECDSA CS_TXT_IDX_CAMELLIA256 CS_TXT_IDX_GCM CS_TXT_IDX_SHA384 CS_TXT_IDX_ CS_TXT_IDX_ CS_TXT_IDX_,
  CS_ENTRY 0xC088 CS_TXT_IDX_TLS CS_TXT_IDX_ECDH CS_TXT_IDX_ECDSA CS_TXT_IDX_WITH CS_TXT_IDX_CAMELLIA CS_TXT_IDX_128 CS_TXT_IDX_GCM CS_TXT_IDX_SHA256,
  CS_ENTRY 0xC088 CS_TXT_IDX_ECDH CS_TXT_IDX_ECDSA CS_TXT_IDX_CAMELLIA128 CS_TXT_IDX_GCM CS_TXT_IDX_SHA256 CS_TXT_IDX_ CS_TXT_IDX_ CS_TXT_IDX_,
  CS_ENTRY 0xC089 CS_TXT_IDX_TLS CS_TXT_IDX_ECDH CS_TXT_IDX_ECDSA CS_TXT_IDX_WITH CS_TXT_IDX_CAMELLIA CS_TXT_IDX_256 CS_TXT_IDX_GCM CS_TXT_IDX_SHA384,
  CS_ENTRY 0xC089 CS_TXT_IDX_ECDH CS_TXT_IDX_ECDSA CS_TXT_IDX_CAMELLIA256 CS_TXT_IDX_GCM CS_TXT_IDX_SHA384 CS_TXT_IDX_ CS_TXT_IDX_ CS_TXT_IDX_,
  CS_ENTRY 0xC08A CS_TXT_IDX_TLS CS_TXT_IDX_ECDHE CS_TXT_IDX_RSA CS_TXT_IDX_WITH CS_TXT_IDX_CAMELLIA CS_TXT_IDX_128 CS_TXT_IDX_GCM CS_TXT_IDX_SHA256,
  CS_ENTRY 0xC08A CS_TXT_IDX_ECDHE CS_TXT_IDX_CAMELLIA128 CS_TXT_IDX_GCM CS_TXT_IDX_SHA256 CS_TXT_IDX_ CS_TXT_IDX_ CS_TXT_IDX_ CS_TXT_IDX_,
  CS_ENTRY 0xC08B CS_TXT_IDX_TLS CS_TXT_IDX_ECDHE CS_TXT_IDX_RSA CS_TXT_IDX_WITH CS_TXT_IDX_CAMELLIA CS_TXT_IDX_256 CS_TXT_IDX_GCM CS_TXT_IDX_SHA384,
  CS_ENTRY 0xC08B CS_TXT_IDX_ECDHE CS_TXT_IDX_CAMELLIA256 CS_TXT_IDX_GCM CS_TXT_IDX_SHA384 CS_TXT_IDX_ CS_TXT_IDX_ CS_TXT_IDX_ CS_TXT_IDX_,
  CS_ENTRY 0xC08C CS_TXT_IDX_TLS CS_TXT_IDX_ECDH CS_TXT_IDX_RSA CS_TXT_IDX_WITH CS_TXT_IDX_CAMELLIA CS_TXT_IDX_128 CS_TXT_IDX_GCM CS_TXT_IDX_SHA256,
  CS_ENTRY 0xC08C CS_TXT_IDX_ECDH CS_TXT_IDX_CAMELLIA128 CS_TXT_IDX_GCM CS_TXT_IDX_SHA256 CS_TXT_IDX_ CS_TXT_IDX_ CS_TXT_IDX_ CS_TXT_IDX_,
  CS_ENTRY 0xC08D CS_TXT_IDX_TLS CS_TXT_IDX_ECDH CS_TXT_IDX_RSA CS_TXT_IDX_WITH CS_TXT_IDX_CAMELLIA CS_TXT_IDX_256 CS_TXT_IDX_GCM CS_TXT_IDX_SHA384,
  CS_ENTRY 0xC08D CS_TXT_IDX_ECDH CS_TXT_IDX_CAMELLIA256 CS_TXT_IDX_GCM CS_TXT_IDX_SHA384 CS_TXT_IDX_ CS_TXT_IDX_ CS_TXT_IDX_ CS_TXT_IDX_,
  CS_ENTRY 0xC08E CS_TXT_IDX_TLS CS_TXT_IDX_PSK CS_TXT_IDX_WITH CS_TXT_IDX_CAMELLIA CS_TXT_IDX_128 CS_TXT_IDX_GCM CS_TXT_IDX_SHA256 CS_TXT_IDX_,
  CS_ENTRY 0xC08E CS_TXT_IDX_PSK CS_TXT_IDX_CAMELLIA128 CS_TXT_IDX_GCM CS_TXT_IDX_SHA256 CS_TXT_IDX_ CS_TXT_IDX_ CS_TXT_IDX_ CS_TXT_IDX_,
  CS_ENTRY 0xC08F CS_TXT_IDX_TLS CS_TXT_IDX_PSK CS_TXT_IDX_WITH CS_TXT_IDX_CAMELLIA CS_TXT_IDX_256 CS_TXT_IDX_GCM CS_TXT_IDX_SHA384 CS_TXT_IDX_,
  CS_ENTRY 0xC08F CS_TXT_IDX_PSK CS_TXT_IDX_CAMELLIA256 CS_TXT_IDX_GCM CS_TXT_IDX_SHA384 CS_TXT_IDX_ CS_TXT_IDX_ CS_TXT_IDX_ CS_TXT_IDX_,
  CS_ENTRY 0xC090 CS_TXT_IDX_TLS CS_TXT_IDX_DHE CS_TXT_IDX_PSK CS_TXT_IDX_WITH CS_TXT_IDX_CAMELLIA CS_TXT_IDX_128 CS_TXT_IDX_GCM CS_TXT_IDX_SHA256,
  CS_ENTRY 0xC090 CS_TXT_IDX_DHE CS_TXT_IDX_PSK CS_TXT_IDX_CAMELLIA128 CS_TXT_IDX_GCM CS_TXT_IDX_SHA256 CS_TXT_IDX_ CS_TXT_IDX_ CS_TXT_IDX_,
  CS_ENTRY 0xC091 CS_TXT_IDX_TLS CS_TXT_IDX_DHE CS_TXT_IDX_PSK CS_TXT_IDX_WITH CS_TXT_IDX_CAMELLIA CS_TXT_IDX_256 CS_TXT_IDX_GCM CS_TXT_IDX_SHA384,
  CS_ENTRY 0xC091 CS_TXT_IDX_DHE CS_TXT_IDX_PSK CS_TXT_IDX_CAMELLIA256 CS_TXT_IDX_GCM CS_TXT_IDX_SHA384 CS_TXT_IDX_ CS_TXT_IDX_ CS_TXT_IDX_,
  CS_ENTRY 0xC092 CS_TXT_IDX_TLS CS_TXT_IDX_RSA CS_TXT_IDX_PSK CS_TXT_IDX_WITH CS_TXT_IDX_CAMELLIA CS_TXT_IDX_128 CS_TXT_IDX_GCM CS_TXT_IDX_SHA256,
  CS_ENTRY 0xC092 CS_TXT_IDX_RSA CS_TXT_IDX_PSK CS_TXT_IDX_CAMELLIA128 CS_TXT_IDX_GCM CS_TXT_IDX_SHA256 CS_TXT_IDX_ CS_TXT_IDX_ CS_TXT_IDX_,
  CS_ENTRY 0xC093 CS_TXT_IDX_TLS CS_TXT_IDX_RSA CS_TXT_IDX_PSK CS_TXT_IDX_WITH CS_TXT_IDX_CAMELLIA CS_TXT_IDX_256 CS_TXT_IDX_GCM CS_TXT_IDX_SHA384,
  CS_ENTRY 0xC093 CS_TXT_IDX_RSA CS_TXT_IDX_PSK CS_TXT_IDX_CAMELLIA256 CS_TXT_IDX_GCM CS_TXT_IDX_SHA384 CS_TXT_IDX_ CS_TXT_IDX_ CS_TXT_IDX_,
  CS_ENTRY 0xC094 CS_TXT_IDX_TLS CS_TXT_IDX_PSK CS_TXT_IDX_WITH CS_TXT_IDX_CAMELLIA CS_TXT_IDX_128 CS_TXT_IDX_CBC CS_TXT_IDX_SHA256 CS_TXT_IDX_,
  CS_ENTRY 0xC094 CS_TXT_IDX_PSK CS_TXT_IDX_CAMELLIA128 CS_TXT_IDX_SHA256 CS_TXT_IDX_ CS_TXT_IDX_ CS_TXT_IDX_ CS_TXT_IDX_ CS_TXT_IDX_,
  CS_ENTRY 0xC095 CS_TXT_IDX_TLS CS_TXT_IDX_PSK CS_TXT_IDX_WITH CS_TXT_IDX_CAMELLIA CS_TXT_IDX_256 CS_TXT_IDX_CBC CS_TXT_IDX_SHA384 CS_TXT_IDX_,
  CS_ENTRY 0xC095 CS_TXT_IDX_PSK CS_TXT_IDX_CAMELLIA256 CS_TXT_IDX_SHA384 CS_TXT_IDX_ CS_TXT_IDX_ CS_TXT_IDX_ CS_TXT_IDX_ CS_TXT_IDX_,
  CS_ENTRY 0xC096 CS_TXT_IDX_TLS CS_TXT_IDX_DHE CS_TXT_IDX_PSK CS_TXT_IDX_WITH CS_TXT_IDX_CAMELLIA CS_TXT_IDX_128 CS_TXT_IDX_CBC CS_TXT_IDX_SHA256,
  CS_ENTRY 0xC096 CS_TXT_IDX_DHE CS_TXT_IDX_PSK CS_TXT_IDX_CAMELLIA128 CS_TXT_IDX_SHA256 CS_TXT_IDX_ CS_TXT_IDX_ CS_TXT_IDX_ CS_TXT_IDX_,
  CS_ENTRY 0xC097 CS_TXT_IDX_TLS CS_TXT_IDX_DHE CS_TXT_IDX_PSK CS_TXT_IDX_WITH CS_TXT_IDX_CAMELLIA CS_TXT_IDX_256 CS_TXT_IDX_CBC CS_TXT_IDX_SHA384,
  CS_ENTRY 0xC097 CS_TXT_IDX_DHE CS_TXT_IDX_PSK CS_TXT_IDX_CAMELLIA256 CS_TXT_IDX_SHA384 CS_TXT_IDX_ CS_TXT_IDX_ CS_TXT_IDX_ CS_TXT_IDX_,
  CS_ENTRY 0xC098 CS_TXT_IDX_TLS CS_TXT_IDX_RSA CS_TXT_IDX_PSK CS_TXT_IDX_WITH CS_TXT_IDX_CAMELLIA CS_TXT_IDX_128 CS_TXT_IDX_CBC CS_TXT_IDX_SHA256,
  CS_ENTRY 0xC098 CS_TXT_IDX_RSA CS_TXT_IDX_PSK CS_TXT_IDX_CAMELLIA128 CS_TXT_IDX_SHA256 CS_TXT_IDX_ CS_TXT_IDX_ CS_TXT_IDX_ CS_TXT_IDX_,
  CS_ENTRY 0xC099 CS_TXT_IDX_TLS CS_TXT_IDX_RSA CS_TXT_IDX_PSK CS_TXT_IDX_WITH CS_TXT_IDX_CAMELLIA CS_TXT_IDX_256 CS_TXT_IDX_CBC CS_TXT_IDX_SHA384,
  CS_ENTRY 0xC099 CS_TXT_IDX_RSA CS_TXT_IDX_PSK CS_TXT_IDX_CAMELLIA256 CS_TXT_IDX_SHA384 CS_TXT_IDX_ CS_TXT_IDX_ CS_TXT_IDX_ CS_TXT_IDX_,
  CS_ENTRY 0xC09A CS_TXT_IDX_TLS CS_TXT_IDX_ECDHE CS_TXT_IDX_PSK CS_TXT_IDX_WITH CS_TXT_IDX_CAMELLIA CS_TXT_IDX_128 CS_TXT_IDX_CBC CS_TXT_IDX_SHA256,
  CS_ENTRY 0xC09A CS_TXT_IDX_ECDHE CS_TXT_IDX_PSK CS_TXT_IDX_CAMELLIA128 CS_TXT_IDX_SHA256 CS_TXT_IDX_ CS_TXT_IDX_ CS_TXT_IDX_ CS_TXT_IDX_,
  CS_ENTRY 0xC09B CS_TXT_IDX_TLS CS_TXT_IDX_ECDHE CS_TXT_IDX_PSK CS_TXT_IDX_WITH CS_TXT_IDX_CAMELLIA CS_TXT_IDX_256 CS_TXT_IDX_CBC CS_TXT_IDX_SHA384,
  CS_ENTRY 0xC09B CS_TXT_IDX_ECDHE CS_TXT_IDX_PSK CS_TXT_IDX_CAMELLIA256 CS_TXT_IDX_SHA384 CS_TXT_IDX_ CS_TXT_IDX_ CS_TXT_IDX_ CS_TXT_IDX_,
  CS_ENTRY 0xC09E CS_TXT_IDX_TLS CS_TXT_IDX_DHE CS_TXT_IDX_RSA CS_TXT_IDX_WITH CS_TXT_IDX_AES CS_TXT_IDX_128 CS_TXT_IDX_CCM CS_TXT_IDX_,
  CS_ENTRY 0xC09E CS_TXT_IDX_DHE CS_TXT_IDX_RSA CS_TXT_IDX_AES128 CS_TXT_IDX_CCM CS_TXT_IDX_ CS_TXT_IDX_ CS_TXT_IDX_ CS_TXT_IDX_,
  CS_ENTRY 0xC09F CS_TXT_IDX_TLS CS_TXT_IDX_DHE CS_TXT_IDX_RSA CS_TXT_IDX_WITH CS_TXT_IDX_AES CS_TXT_IDX_256 CS_TXT_IDX_CCM CS_TXT_IDX_,
  CS_ENTRY 0xC09F CS_TXT_IDX_DHE CS_TXT_IDX_RSA CS_TXT_IDX_AES256 CS_TXT_IDX_CCM CS_TXT_IDX_ CS_TXT_IDX_ CS_TXT_IDX_ CS_TXT_IDX_,
  CS_ENTRY 0xC0A2 CS_TXT_IDX_TLS CS_TXT_IDX_DHE CS_TXT_IDX_RSA CS_TXT_IDX_WITH CS_TXT_IDX_AES CS_TXT_IDX_128 CS_TXT_IDX_CCM CS_TXT_IDX_8,
  CS_ENTRY 0xC0A2 CS_TXT_IDX_DHE CS_TXT_IDX_RSA CS_TXT_IDX_AES128 CS_TXT_IDX_CCM8 CS_TXT_IDX_ CS_TXT_IDX_ CS_TXT_IDX_ CS_TXT_IDX_,
  CS_ENTRY 0xC0A3 CS_TXT_IDX_TLS CS_TXT_IDX_DHE CS_TXT_IDX_RSA CS_TXT_IDX_WITH CS_TXT_IDX_AES CS_TXT_IDX_256 CS_TXT_IDX_CCM CS_TXT_IDX_8,
  CS_ENTRY 0xC0A3 CS_TXT_IDX_DHE CS_TXT_IDX_RSA CS_TXT_IDX_AES256 CS_TXT_IDX_CCM8 CS_TXT_IDX_ CS_TXT_IDX_ CS_TXT_IDX_ CS_TXT_IDX_,
  CS_ENTRY 0xC0A4 CS_TXT_IDX_TLS CS_TXT_IDX_PSK CS_TXT_IDX_WITH CS_TXT_IDX_AES CS_TXT_IDX_128 CS_TXT_IDX_CCM CS_TXT_IDX_ CS_TXT_IDX_,
  CS_ENTRY 0xC0A4 CS_TXT_IDX_PSK CS_TXT_IDX_AES128 CS_TXT_IDX_CCM CS_TXT_IDX_ CS_TXT_IDX_ CS_TXT_IDX_ CS_TXT_IDX_ CS_TXT_IDX_,
  CS_ENTRY 0xC0A5 CS_TXT_IDX_TLS CS_TXT_IDX_PSK CS_TXT_IDX_WITH CS_TXT_IDX_AES CS_TXT_IDX_256 CS_TXT_IDX_CCM CS_TXT_IDX_ CS_TXT_IDX_,
  CS_ENTRY 0xC0A5 CS_TXT_IDX_PSK CS_TXT_IDX_AES256 CS_TXT_IDX_CCM CS_TXT_IDX_ CS_TXT_IDX_ CS_TXT_IDX_ CS_TXT_IDX_ CS_TXT_IDX_,
  CS_ENTRY 0xC0A6 CS_TXT_IDX_TLS CS_TXT_IDX_DHE CS_TXT_IDX_PSK CS_TXT_IDX_WITH CS_TXT_IDX_AES CS_TXT_IDX_128 CS_TXT_IDX_CCM CS_TXT_IDX_,
  CS_ENTRY 0xC0A6 CS_TXT_IDX_DHE CS_TXT_IDX_PSK CS_TXT_IDX_AES128 CS_TXT_IDX_CCM CS_TXT_IDX_ CS_TXT_IDX_ CS_TXT_IDX_ CS_TXT_IDX_,
  CS_ENTRY 0xC0A7 CS_TXT_IDX_TLS CS_TXT_IDX_DHE CS_TXT_IDX_PSK CS_TXT_IDX_WITH CS_TXT_IDX_AES CS_TXT_IDX_256 CS_TXT_IDX_CCM CS_TXT_IDX_,
  CS_ENTRY 0xC0A7 CS_TXT_IDX_DHE CS_TXT_IDX_PSK CS_TXT_IDX_AES256 CS_TXT_IDX_CCM CS_TXT_IDX_ CS_TXT_IDX_ CS_TXT_IDX_ CS_TXT_IDX_,
  CS_ENTRY 0xC0A8 CS_TXT_IDX_TLS CS_TXT_IDX_PSK CS_TXT_IDX_WITH CS_TXT_IDX_AES CS_TXT_IDX_128 CS_TXT_IDX_CCM CS_TXT_IDX_8 CS_TXT_IDX_,
  CS_ENTRY 0xC0A8 CS_TXT_IDX_PSK CS_TXT_IDX_AES128 CS_TXT_IDX_CCM8 CS_TXT_IDX_ CS_TXT_IDX_ CS_TXT_IDX_ CS_TXT_IDX_ CS_TXT_IDX_,
  CS_ENTRY 0xC0A9 CS_TXT_IDX_TLS CS_TXT_IDX_PSK CS_TXT_IDX_WITH CS_TXT_IDX_AES CS_TXT_IDX_256 CS_TXT_IDX_CCM CS_TXT_IDX_8 CS_TXT_IDX_,
  CS_ENTRY 0xC0A9 CS_TXT_IDX_PSK CS_TXT_IDX_AES256 CS_TXT_IDX_CCM8 CS_TXT_IDX_ CS_TXT_IDX_ CS_TXT_IDX_ CS_TXT_IDX_ CS_TXT_IDX_,
  CS_ENTRY 0xC0AA CS_TXT_IDX_TLS CS_TXT_IDX_PSK CS_TXT_IDX_DHE CS_TXT_IDX_WITH CS_TXT_IDX_AES CS_TXT_IDX_128 CS_TXT_IDX_CCM CS_TXT_IDX_8,
  CS_ENTRY 0xC0AA CS_TXT_IDX_DHE CS_TXT_IDX_PSK CS_TXT_IDX_AES128 CS_TXT_IDX_CCM8 CS_TXT_IDX_ CS_TXT_IDX_ CS_TXT_IDX_ CS_TXT_IDX_,
  CS_ENTRY 0xC0AB CS_TXT_IDX_TLS CS_TXT_IDX_PSK CS_TXT_IDX_DHE CS_TXT_IDX_WITH CS_TXT_IDX_AES CS_TXT_IDX_256 CS_TXT_IDX_CCM CS_TXT_IDX_8,
  CS_ENTRY 0xC0AB CS_TXT_IDX_DHE CS_TXT_IDX_PSK CS_TXT_IDX_AES256 CS_TXT_IDX_CCM8 CS_TXT_IDX_ CS_TXT_IDX_ CS_TXT_IDX_ CS_TXT_IDX_,
  CS_ENTRY 0xCCAA CS_TXT_IDX_TLS CS_TXT_IDX_DHE CS_TXT_IDX_RSA CS_TXT_IDX_WITH CS_TXT_IDX_CHACHA20 CS_TXT_IDX_POLY1305 CS_TXT_IDX_SHA256 CS_TXT_IDX_,
  CS_ENTRY 0xCCAA CS_TXT_IDX_DHE CS_TXT_IDX_RSA CS_TXT_IDX_CHACHA20 CS_TXT_IDX_POLY1305 CS_TXT_IDX_ CS_TXT_IDX_ CS_TXT_IDX_ CS_TXT_IDX_,
  CS_ENTRY 0xCCAC CS_TXT_IDX_TLS CS_TXT_IDX_ECDHE CS_TXT_IDX_PSK CS_TXT_IDX_WITH CS_TXT_IDX_CHACHA20 CS_TXT_IDX_POLY1305 CS_TXT_IDX_SHA256 CS_TXT_IDX_,
  CS_ENTRY 0xCCAC CS_TXT_IDX_ECDHE CS_TXT_IDX_PSK CS_TXT_IDX_CHACHA20 CS_TXT_IDX_POLY1305 CS_TXT_IDX_ CS_TXT_IDX_ CS_TXT_IDX_ CS_TXT_IDX_,
  CS_ENTRY 0xCCAD CS_TXT_IDX_TLS CS_TXT_IDX_DHE CS_TXT_IDX_PSK CS_TXT_IDX_WITH CS_TXT_IDX_CHACHA20 CS_TXT_IDX_POLY1305 CS_TXT_IDX_SHA256 CS_TXT_IDX_,
  CS_ENTRY 0xCCAD CS_TXT_IDX_DHE CS_TXT_IDX_PSK CS_TXT_IDX_CHACHA20 CS_TXT_IDX_POLY1305 CS_TXT_IDX_ CS_TXT_IDX_ CS_TXT_IDX_ CS_TXT_IDX_,
  CS_ENTRY 0xCCAE CS_TXT_IDX_TLS CS_TXT_IDX_RSA CS_TXT_IDX_PSK CS_TXT_IDX_WITH CS_TXT_IDX_CHACHA20 CS_TXT_IDX_POLY1305 CS_TXT_IDX_SHA256 CS_TXT_IDX_,
  CS_ENTRY 0xCCAE CS_TXT_IDX_RSA CS_TXT_IDX_PSK CS_TXT_IDX_CHACHA20 CS_TXT_IDX_POLY1305 CS_TXT_IDX_ CS_TXT_IDX_ CS_TXT_IDX_ CS_TXT_IDX_]

/-- The unzip step of cs_zip_to_str: recovers the 8 six-bit indexes. -/
def cs_unzip (zip : List Nat) : List Nat :=
  [zip.getD 0 0 >>> 2,
   (zip.getD 0 0 <<< 4) &&& 0x3F ||| zip.getD 1 0 >>> 4,
   (zip.getD 1 0 <<< 2) &&& 0x3F ||| zip.getD 2 0 >>> 6,
   zip.getD 2 0 &&& 0x3F,
   zip.getD 3 0 >>> 2,
   (zip.getD 3 0 <<< 4) &&& 0x3F ||| zip.getD 4 0 >>> 4,
   (zip.getD 4 0 <<< 2) &&& 0x3F ||| zip.getD 5 0 >>> 6,
   zip.getD 5 0 &&& 0x3F]

/-- The output loop of cs_zip_to_str. Stops at a zero index or when the
written length reaches buf_size; an index at or above CS_TXT_LEN aborts.
Each part is written through msnprintf, modelled from the spec: the write
fails unless the part and its NUL terminator fit in the remaining space. -/
def cs_zip_go (buf_size : Nat) (sep : Char) :
    List Nat → Bool → Nat → List Char → Option (List Char)
  | [], _, _, out => some out
  | idx :: rest, first, len, out =>
    if idx = 0 ∨ ¬ len < buf_size then some out
    else if 36 ≤ idx then none
    else
      if ((if first then [] else [sep]) ++ cs_tokens.getD idx []).length + 1 ≤
          buf_size - len then
        cs_zip_go buf_size sep rest false
          (len + ((if first then [] else [sep]) ++ cs_tokens.getD idx []).length)
          (out ++ ((if first then [] else [sep]) ++ cs_tokens.getD idx []))
      else none

/-- cs_zip_to_str: none models the -1 return, some s a 0 return with s the
string written to the buffer. -/
def cs_zip_to_str (zip : List Nat) (buf_size : Nat) : Option (List Char) :=
  cs_zip_go buf_size (if (cs_unzip zip).getD 0 0 = 1 then '_' else '-')
    (cs_unzip zip) true 0 []

/-- The string cs_zip_to_str writes when no buffer limit intervenes: the
dictionary tokens of the indexes up to the first zero, joined with the
separator. -/
def cs_zip_go_free (sep : Char) : List Nat → Bool → List Char
  | [], _ => []
  | idx :: rest, first =>
    if idx = 0 then []
    else ((if first then [] else [sep]) ++ cs_tokens.getD idx []) ++
      cs_zip_go_free sep rest false

/-- The full (untruncated) display name of a packed entry. -/
def cs_free_name (zip : List Nat) : List Char :=
  cs_zip_go_free (if (cs_unzip zip).getD 0 0 = 1 then '_' else '-')
    (cs_unzip zip) true

/-- Whether an entry is in RFC style: its first token index is TLS. -/
def cs_style (e : cs_entry) : Bool := (cs_unzip e.zip).getD 0 0 == 1

/-- The selection loop of Curl_cipher_suite_get_str: j holds the first
id match; the first id match of the preferred style breaks the loop. -/
def cs_select : List cs_entry → Nat → Bool → Option cs_entry → Option cs_entry
  | [], _, _, j => j
  | e :: rest, id, pr, j =>
    if e.id = id then
      if ((e.zip.getD 0 0 >>> 2 != 1) == !pr) then some e
      else cs_select rest id pr (if j.isSome then j else some e)
    else cs_select rest id pr j

/-- The preferred-style predicate of the selection loop: an id match whose
naming style agrees with prefer_rfc. -/
def cs_prefP (id : Nat) (pr : Bool) (x : cs_entry) : Bool :=
  x.id == id && ((x.zip.getD 0 0 >>> 2 != 1) == !pr)

/-- A plain id match. -/
def cs_idP (id : Nat) (x : cs_entry) : Bool := x.id == id

def cs_hex_digit (n : Nat) : Char :=
  if n < 10 then Char.ofNat (48 + n) else Char.ofNat (87 + n)

/-- The TLS_UNKNOWN_0x%04x fallback text for a 16-bit identifier. -/
def cs_fallback_full (id : Nat) : List Char :=
  "TLS_UNKNOWN_0x".data ++
    [cs_hex_digit (id / 4096 % 16), cs_hex_digit (id / 256 % 16),
     cs_hex_digit (id / 16 % 16), cs_hex_digit (id % 16)]

/-- Modelled from the spec: the msnprintf fallback write of
Curl_cipher_suite_get_str — the fallback text truncated to the buffer
(one byte is kept for the NUL terminator); a zero-sized buffer gets
nothing. -/
def cs_fallback (id : Nat) (buf_size : Nat) : List Char :=
  if buf_size = 0 then [] else (cs_fallback_full id).take (buf_size - 1)

/-- Curl_cipher_suite_get_str: returns the msnprintf style return code and
the buffer contents. -/
def Curl_cipher_suite_get_str (id : Nat) (buf_size : Nat)
    (prefer_rfc : Bool) : Int × List Char :=
  match cs_select cs_list id prefer_rfc none with
  | some e =>
    match cs_zip_to_str e.zip buf_size with
    | some s => (0, s)
    | none => (-1, cs_fallback id buf_size)
  | none => (-1, cs_fallback id buf_size)

/-- Curl_cipher_suite_lookup_id: encode the first cs_len bytes of the name
and scan the table for the first entry with the same packed bytes;
0 on any failure. -/
def Curl_cipher_suite_lookup_id (cs_str : List Char) (cs_len : Nat) : Nat :=
  if 0 < cs_len then
    match cs_str_to_zip (cs_str.take cs_len) with
    | .ok zip =>
      match cs_list.find? (fun e => e.zip == zip) with
      | some e => e.id
      | none => 0
    | .error _ => 0
  else 0

/-- cs_is_separator: the list delimiters accepted between suite names. -/
def cs_is_separator (c : Char) : Bool :=
  c == ' ' || c == '\t' || c == ':' || c == ',' || c == ';'

/-- The first loop of Curl_cipher_suite_walk_str: advance over separator
characters; the terminating NUL (the end of the list) is not a separator. -/
def cs_skip_go : List Char → Nat → Nat
  | [], i => i
  | c :: rest, i => if cs_is_separator c then cs_skip_go rest (i + 1) else i

def cs_skip (s : List Char) (i : Nat) : Nat := cs_skip_go (s.drop i) i

/-- The second loop of Curl_cipher_suite_walk_str: advance to the next
separator, NUL byte or end of string. -/
def cs_scan_go : List Char → Nat → Nat
  | [], i => i
  | c :: rest, i =>
    if c ≠ '\x00' ∧ ¬ cs_is_separator c = true then cs_scan_go rest (i + 1)
    else i

def cs_scan_end (s : List Char) (i : Nat) : Nat := cs_scan_go (s.drop i) i

/-- Curl_cipher_suite_walk_str over a string s with the cursor at position
str: returns the moved cursor, the end position of the scanned name and
the id the name resolves to. -/
def Curl_cipher_suite_walk_str (s : List Char) (str : Nat) : Nat × Nat × Nat :=
  (cs_skip s str, cs_scan_end s (cs_skip s str),
    Curl_cipher_suite_lookup_id (s.drop (cs_skip s str))
      (cs_scan_end s (cs_skip s str) - cs_skip s str))

/-- No index after the first zero index is non-zero. -/
def cs_no_holes (l : List Nat) : Bool :=
  (l.dropWhile (fun i => i != 0)).all (fun i => i == 0)

def cs_join_sep (sep : Char) : List (List Char) → List Char
  | [] => []
  | [t] => t
  | t :: ts => t ++ sep :: cs_join_sep sep ts

def cs_key (e : cs_entry) : Nat :=
  ((((e.zip.getD 0 0 * 256 + e.zip.getD 1 0) * 256 + e.zip.getD 2 0) * 256 +
    e.zip.getD 3 0) * 256 + e.zip.getD 4 0) * 256 + e.zip.getD 5 0

def cs_key2 (e : cs_entry) : Nat :=
  e.id * 2 + (if e.zip.getD 0 0 >>> 2 = 1 then 1 else 0)

def cs_keys : List Nat := [
  6187018659520, 37039797960704, 6187018921664, 41437844471808, 6187018659584, 37108517437440, 
  6187018921728, 41506563948544, 6187018704640, 36657545871360, 6187018966848, 41056666124288, 
  5586714112667, 76081503666176, 5586714116763, 76082577408000, 5655433589403, 80479550177280, 
  5655433593499, 80480623919104, 5594230305435, 76562540003328, 5594230309531, 76563613745152, 
  5662949782171, 80960586514432, 5662949786267, 80961660256256, 5655433589404, 80479566954496, 
  5655433593501, 80480657473536, 5586714112668, 76081520443392, 5586714116765, 76082610962432, 
  5662949782172, 80960603291648, 5662949786269, 80961693810688, 5594230305436, 76562556780544, 
  5594230309533, 76563647299584, 5655433590108, 80479456854016, 5655433594205, 80480530857984, 
  5586714113372, 76081410342912, 5586714117469, 76082484346880, 5662949782876, 80960493191168, 
  5662949786973, 80961567195136, 5594230306140, 76562446680064, 5594230310237, 76563520684032, 
  5662951704320, 80966978633728, 5655435511552, 80485942296576, 6187292033024, 102666898243584, 
  6187293343744, 103010495627264, 6118573867008, 111560701771776, 5524441378816, 
  72111880142848, 6211636146176, 116092345253888, 5525510828699, 72164493492224, 5525510832795, 
  72165567234048, 6187293605888, 103079215104000, 5525510828700, 72164510269440, 5525510832796, 
  72165584011264, 6118299182784, 110512108994560, 6118299444928, 110580828471296, 
  5524437086875, 72095495880704, 5524437090971, 72096569622528, 6211631854235, 116075960991744, 
  6211631858331, 116077034733568, 5525510829404, 72164400168960, 5525510833501, 72165474172928, 
  6118299227904, 110523936931840, 6118299490112, 110592673185792, 5524437087580, 
  72095680692224, 5524437091677, 72096754696192, 6211631854940, 116076145803264, 6211631859037, 
  116077219807232, 6118299182848, 110512125771776, 6118299445056, 110580862025728, 
  6118574129152, 111561775513600, 6118574391296, 111562849255424, 5524437086876, 
  72095496142848, 5524437090973, 72096570146816, 5524441382912, 72111896920064, 5524441387008, 
  72111913697280, 6211631854236, 116075961253888, 6211631858333, 116077035257856, 
  6211636150272, 116092362031104, 6211636154368, 116092378808320, 4882663735296, 4883737739264, 
  5386358751232, 4882512740352, 4882507087872, 5586718404608, 76097609793536, 5655437881344, 
  80495656304640, 5594234597376, 76578646130688, 5662954074112, 80976692641792, 5661876040347, 
  80891588902912, 5661876044443, 80892662644736, 6118422200320, 110939005255680, 6187018665984, 
  36009005809664, 6187018928128, 40407052320768, 6187018666368, 36077725286400, 6187018928512, 
  40475771797504, 5655433589504, 80479298519040, 5655433593600, 80480372260864, 5655433589510, 
  80479315296256, 5655433593606, 80480389038080, 6187454867136, 151389007249408, 5525517644443, 
  72192410779648, 6187455129280, 155787053760512, 5525517648539, 72193484521472, 6187454867200, 
  151457726726144, 5525517644444, 72192427556864, 6187455129344, 155855773237248, 
  5525517648540, 72193501298688, 5661876040348, 80891589165056, 5661876044445, 80892663169024, 
  5661880332288, 80907973165056, 5661880336384, 80907989942272, 5661880340480, 80908006719488, 
  6187404535552, 138263587192832, 6187404797760, 142730353180672, 5525516858012, 
  72189206331392, 5525516862109, 72190296850432, 5655439618716, 80504263016448, 5655439622813, 
  80505353535488, 5586720141980, 76106216505344, 5586720146077, 76107307024384, 5662955811484, 
  81325205749760, 5662955815581, 81394998968320, 5594236334748, 76927159238656, 5594236338845, 
  76996952457216, 6187404580608, 137812615626752, 6187404842816, 142211735879680, 
  5525516858716, 72189096230912, 5525516862813, 72190170234880, 5655439619420, 80504152915968, 
  5655439623517, 80505226919936, 5586720142684, 76106106404864, 5586720146781, 76107180408832, 
  5662955812188, 81318159319040, 5662955816285, 81386895572992, 5594236335452, 76920112807936, 
  5594236339549, 76988849061888, 6118685058816, 112111531327488, 6118685321024, 
  112181324546048, 5524443116188, 72120486854656, 5524443120285, 72121577373696, 6211637883548, 
  116100951965696, 6211637887645, 116102042484736, 6118685103872, 112104484896768, 
  6118685366080, 112173221150720, 5524443116892, 72120376754176, 5524443120989, 72121450758144, 
  6211637884252, 116100841865216, 6211637888349, 116101915869184, 5661882069660, 
  80916579876864, 5661882073757, 80917670395904, 5655440405148, 80507484241920, 5655440409245, 
  80508574760960, 5586720928412, 76109437730816, 5586720932509, 76110528249856, 5662956597916, 
  80988520579072, 5662956602013, 80989611098112, 5594237121180, 77133317668864, 5594237125277, 
  77203110887424, 6187454912256, 151006755160064, 6187455174464, 155405875412992, 
  5525517645148, 72192317456384, 5525517649245, 72193391460352, 5655440405852, 80507374141440, 
  5655440409949, 80508448145408, 5586720929116, 76109327630336, 5586720933213, 76110401634304, 
  5662956598620, 81524317749248, 5662956602717, 81593054003200, 5594237121884, 77126271238144, 
  5594237125981, 77195007492096, 6118735435520, 112310643326976, 6118735697728, 
  112379379580928, 5524443903324, 72123597979648, 5524443907421, 72124671983616, 6211638670684, 
  116104063090688, 6211638674781, 116105137094656, 6118735390464, 112317689757696, 
  6118735652672, 112387482976256, 5524443902620, 72123708080128, 5524443906717, 72124798599168, 
  6211638669980, 116104173191168, 6211638674077, 116105263710208, 5661882856092, 
  80919801102336, 5661882860189, 80920891621376, 5525510828800, 72164241833984, 5525510832896, 
  72165315575808, 5525510828806, 72164258611200, 5525510832902, 72165332353024, 6118299189248, 
  110513803493376, 6118299451392, 110582522970112, 5524437086976, 72095522357248, 
  5524437091072, 72096596099072, 6118299189632, 110514877235200, 6118299451776, 
  110583596711936, 6133248701190, 72095539134464, 6133248705286, 72096612876288, 5525512750848, 
  72170885611520, 5661877962496, 80898259156992, 5524439009024, 72102166134784, 6211633776384, 
  116082631245824]

def cs_keys2 : List Nat := [
  95, 94, 107, 106, 121, 120, 123, 122, 313, 312, 315, 314, 98313, 98312, 98315, 98314, 98323, 
  98322, 98325, 98324, 98333, 98332, 98335, 98334, 98343, 98342, 98345, 98344, 98375, 98374, 
  98377, 98376, 98379, 98378, 98381, 98380, 98383, 98382, 98385, 98384, 98387, 98386, 98389, 
  98388, 98391, 98390, 98393, 98392, 98395, 98394, 98397, 98396, 98399, 98398, 98401, 98400, 
  98403, 98402, 98405, 98404, 104785, 104784, 104787, 104786, 3, 2, 5, 4, 89, 88, 91, 90, 93, 
  92, 103, 102, 115, 114, 119, 118, 207, 206, 215, 214, 281, 280, 283, 282, 289, 288, 291, 290, 
  297, 296, 299, 298, 317, 316, 319, 318, 337, 336, 339, 338, 341, 340, 343, 342, 345, 344, 
  347, 346, 349, 348, 351, 350, 353, 352, 355, 354, 357, 356, 359, 358, 361, 360, 363, 362, 
  365, 364, 367, 366, 369, 368, 371, 370, 9731, 9733, 9735, 9737, 9739, 98307, 98306, 98317, 
  98316, 98327, 98326, 98337, 98336, 98411, 98410, 98413, 98412, 104791, 104790, 98617, 98616, 
  98619, 98618, 98625, 98624, 98627, 98626, 98649, 98648, 98651, 98650, 98653, 98652, 98655, 
  98654, 131, 130, 139, 138, 265, 264, 273, 272, 373, 372, 381, 380, 385, 384, 393, 392, 98415, 
  98414, 98417, 98416, 98419, 98418, 98421, 98420, 98423, 98422, 98425, 98424, 98427, 98426, 
  98441, 98440, 98443, 98442, 98449, 98448, 98451, 98450, 98453, 98452, 98455, 98454, 98457, 
  98456, 98459, 98458, 98461, 98460, 98463, 98462, 98465, 98464, 98467, 98466, 98469, 98468, 
  98471, 98470, 98489, 98488, 98491, 98490, 98493, 98492, 98495, 98494, 98497, 98496, 98499, 
  98498, 98501, 98500, 98503, 98502, 98505, 98504, 98507, 98506, 98509, 98508, 98511, 98510, 
  98513, 98512, 98515, 98514, 98517, 98516, 98519, 98518, 98521, 98520, 98523, 98522, 98525, 
  98524, 98527, 98526, 98529, 98528, 98531, 98530, 98533, 98532, 98535, 98534, 98537, 98536, 
  98539, 98538, 98541, 98540, 98543, 98542, 98545, 98544, 98547, 98546, 98549, 98548, 98551, 
  98550, 98553, 98552, 98555, 98554, 98573, 98572, 98575, 98574, 98577, 98576, 98579, 98578, 
  98581, 98580, 98583, 98582, 98585, 98584, 98587, 98586, 98589, 98588, 98591, 98590, 98593, 
  98592, 98595, 98594, 98597, 98596, 98599, 98598, 98601, 98600, 98603, 98602, 98605, 98604, 
  98607, 98606, 98609, 98608, 98611, 98610, 98613, 98612, 98615, 98614, 98621, 98620, 98623, 
  98622, 98629, 98628, 98631, 98630, 98633, 98632, 98635, 98634, 98637, 98636, 98639, 98638, 
  98641, 98640, 98643, 98642, 98645, 98644, 98647, 98646, 104789, 104788, 104793, 104792, 
  104795, 104794, 104797, 104796]

/-- Fuel-driven merge of two lists of keys, used to certify key
distinctness. -/
def cs_merge : Nat → List Nat → List Nat → List Nat
  | 0, l, r => l ++ r
  | _ + 1, [], r => r
  | _ + 1, l, [] => l
  | fuel + 1, a :: l, b :: r =>
    if a ≤ b then a :: cs_merge fuel l (b :: r) else b :: cs_merge fuel (a :: l) r

/-- Fuel-driven merge sort on keys. -/
def cs_msort : Nat → List Nat → List Nat
  | 0, l => l
  | _ + 1, [] => []
  | _ + 1, [a] => [a]
  | fuel + 1, l =>
    cs_merge l.length
      (cs_msort fuel (l.take (l.length / 2))) (cs_msort fuel (l.drop (l.length / 2)))

/-- Strict ascending chain check on a list of keys. -/
def cs_chain_lt : List Nat → Bool
  | [] => true
  | [_] => true
  | a :: b :: rest => a < b && cs_chain_lt (b :: rest)

instance : DecidableEq (Except CsErr (List Nat)) := fun a b =>
  match a, b with
  | .ok x, .ok y =>
    if h : x = y then isTrue (by rw [h]) else isFalse (fun hh => h (Except.ok.inj hh))
  | .error x, .error y =>
    if h : x = y then isTrue (by rw [h]) else isFalse (fun hh => h (Except.error.inj hh))
  | .ok _, .error _ => isFalse (fun hh => Except.noConfusion hh)
  | .error _, .ok _ => isFalse (fun hh => Except.noConfusion hh)

/-! Character-level helper lemmas. -/

theorem cs_toNat_inj {a b : Char} (h : a.toNat = b.toNat) : a = b :=
  Char.eq_of_val_eq (UInt32.ext h)

theorem cs_upper_eq_toNat {x e : Char} (he : ¬ (65 ≤ e.toNat ∧ e.toNat ≤ 90))
    (hx : cs_upper x = e.toNat) : x = e := by
  unfold cs_upper at hx
  split at hx
  · exact absurd ⟨by omega, by omega⟩ he
  · exact cs_toNat_inj hx

theorem cs_upper_eq_iff {a b : Char} (h : cs_upper a = cs_upper b) {e : Char}
    (he1 : cs_upper e = e.toNat) (he2 : ¬ (65 ≤ e.toNat ∧ e.toNat ≤ 90)) :
    a = e ↔ b = e := by
  constructor
  · intro ha
    exact cs_upper_eq_toNat he2 (by rw [← h, ha, he1])
  · intro hb
    exact cs_upper_eq_toNat he2 (by rw [h, hb, he1])

theorem cs_caseeq_mem {t f : List Char} (h : cs_caseeq t f = true) {c : Char}
    (hc : c ∈ f) : ∃ d ∈ t, cs_upper d = cs_upper c := by
  induction t generalizing f with
  | nil =>
    cases f with
    | nil => cases hc
    | cons b bs => simp [cs_caseeq] at h
  | cons a as ih =>
    cases f with
    | nil => cases hc
    | cons b bs =>
      simp only [cs_caseeq, Bool.and_eq_true, beq_iff_eq] at h
      rcases List.mem_cons.mp hc with rfl | hc2
      · exact ⟨a, List.mem_cons_self a as, h.1⟩
      · obtain ⟨d, hd, hu⟩ := ih h.2 hc2
        exact ⟨d, List.mem_cons_of_mem a hd, hu⟩

/-! Distinctness certificates for the table keys. -/

theorem cs_merge_perm : ∀ (fuel : Nat) (l r : List Nat),
    (cs_merge fuel l r).Perm (l ++ r) := by
  intro fuel
  induction fuel with
  | zero => intro l r; exact List.Perm.refl _
  | succ n ih =>
    intro l r
    cases l with
    | nil => simp [cs_merge]
    | cons a as =>
      cases r with
      | nil => simp [cs_merge]
      | cons b bs =>
        simp only [cs_merge]
        split
        · exact (ih as (b :: bs)).cons a
        · refine ((ih (a :: as) bs).cons b).trans ?_
          exact List.perm_middle.symm

theorem cs_msort_perm : ∀ (fuel : Nat) (l : List Nat), (cs_msort fuel l).Perm l := by
  intro fuel
  induction fuel with
  | zero => intro l; exact List.Perm.refl _
  | succ n ih =>
    intro l
    match l with
    | [] => exact List.Perm.refl _
    | [a] => exact List.Perm.refl _
    | a :: b :: rest =>
      refine (cs_merge_perm _ _ _).trans ?_
      refine ((ih _).append (ih _)).trans ?_
      rw [List.take_append_drop]

theorem cs_chain_lt_chain : ∀ {l : List Nat}, cs_chain_lt l = true →
    List.Chain' (· < ·) l := by
  intro l
  induction l with
  | nil => intro; exact List.chain'_nil
  | cons a rest ih =>
    cases rest with
    | nil => intro; simp
    | cons b bs =>
      intro h
      simp only [cs_chain_lt, Bool.and_eq_true, decide_eq_true_eq] at h
      exact List.Chain'.cons h.1 (ih (by simpa [cs_chain_lt] using h.2))

theorem cs_chain_lt_nodup {l : List Nat} (h : cs_chain_lt l = true) : l.Nodup :=
  (List.chain'_iff_pairwise.mp (cs_chain_lt_chain h)).imp Nat.ne_of_lt

theorem cs_keys_eq : cs_list.map cs_key = cs_keys := by decide

theorem cs_keys2_eq : cs_list.map cs_key2 = cs_keys2 := by decide

theorem cs_keys_sorted : cs_chain_lt (cs_msort 400 cs_keys) = true := by decide

theorem cs_keys2_sorted : cs_chain_lt (cs_msort 400 cs_keys2) = true := by decide

theorem cs_key_inj : ∀ a ∈ cs_list, ∀ b ∈ cs_list, cs_key a = cs_key b → a = b := by
  have h1 : cs_keys.Nodup :=
    (cs_msort_perm 400 cs_keys).nodup (cs_chain_lt_nodup cs_keys_sorted)
  have h2 : (cs_list.map cs_key).Nodup := cs_keys_eq ▸ h1
  exact List.inj_on_of_nodup_map h2

theorem cs_key2_inj : ∀ a ∈ cs_list, ∀ b ∈ cs_list, cs_key2 a = cs_key2 b → a = b := by
  have h1 : cs_keys2.Nodup :=
    (cs_msort_perm 400 cs_keys2).nodup (cs_chain_lt_nodup cs_keys2_sorted)
  have h2 : (cs_list.map cs_key2).Nodup := cs_keys2_eq ▸ h1
  exact List.inj_on_of_nodup_map h2

/-! Table-wide facts established by evaluation. -/

theorem cs_list_valid : ∀ e ∈ cs_list, ∀ i ∈ cs_unzip e.zip, i < 36 := by decide

theorem cs_list_names : ∀ e ∈ cs_list,
    cs_str_to_zip (cs_free_name e.zip) = .ok e.zip ∧
    (cs_free_name e.zip).length ≠ 0 := by decide

/-! First-match lemmas for the table scans. -/

theorem cs_find_unique {p : cs_entry → Bool} : ∀ (l : List cs_entry) (e : cs_entry),
    e ∈ l → p e = true → (∀ a ∈ l, ∀ b ∈ l, p a = true → p b = true → a = b) →
    l.find? p = some e := by
  intro l
  induction l with
  | nil => intro e he; cases he
  | cons h t ih =>
    intro e he hpe hu
    by_cases hp : p h = true
    · rw [List.find?_cons_of_pos _ hp]
      exact congrArg some (hu h (List.mem_cons_self h t) e he hp hpe)
    · rw [List.find?_cons_of_neg _ hp]
      have he2 : e ∈ t := by
        rcases List.mem_cons.mp he with rfl | ht
        · exact absurd hpe hp
        · exact ht
      exact ih e he2 hpe
        (fun a ha b hb => hu a (List.mem_cons_of_mem _ ha) b (List.mem_cons_of_mem _ hb))

theorem cs_prefP_parts {id : Nat} {pr : Bool} {h : cs_entry}
    (hid : h.id = id) (hsty : ((h.zip.getD 0 0 >>> 2 != 1) == !pr) = true) :
    cs_prefP id pr h = true :=
  (Bool.and_eq_true _ _).mpr ⟨beq_iff_eq.mpr hid, hsty⟩

theorem cs_select_of_pref (id : Nat) (pr : Bool) :
    ∀ (l : List cs_entry) (j : Option cs_entry) (e : cs_entry),
    l.find? (cs_prefP id pr) = some e →
    cs_select l id pr j = some e := by
  intro l
  induction l with
  | nil => intro j e hf; cases hf
  | cons h t ih =>
    intro j e hf
    by_cases hp : cs_prefP id pr h = true
    · rw [List.find?_cons_of_pos _ hp] at hf
      obtain rfl := Option.some.inj hf
      have hp2 := hp
      simp only [cs_prefP, Bool.and_eq_true, beq_iff_eq] at hp2
      have hid : h.id = id := hp2.1
      have hsty : ((h.zip.getD 0 0 >>> 2 != 1) == !pr) = true := by
        rw [hp2.2]
        exact beq_self_eq_true _
      simp only [cs_select]
      rw [if_pos hid, if_pos hsty]
    · rw [List.find?_cons_of_neg _ hp] at hf
      by_cases hid : h.id = id
      · have hsty : ¬ ((h.zip.getD 0 0 >>> 2 != 1) == !pr) = true := by
          intro hs
          exact hp (cs_prefP_parts hid hs)
        simp only [cs_select]
        rw [if_pos hid, if_neg hsty]
        exact ih _ e hf
      · simp only [cs_select]
        rw [if_neg hid]
        exact ih _ e hf

theorem cs_select_of_nopref (id : Nat) (pr : Bool) :
    ∀ (l : List cs_entry) (j : Option cs_entry),
    l.find? (cs_prefP id pr) = none →
    cs_select l id pr j =
      match j with
      | some x => some x
      | none => l.find? (cs_idP id) := by
  intro l
  induction l with
  | nil =>
    intro j hf
    cases j <;> rfl
  | cons h t ih =>
    intro j hf
    have hp : ¬ cs_prefP id pr h = true := by
      intro hph
      rw [List.find?_cons_of_pos _ hph] at hf
      cases hf
    rw [List.find?_cons_of_neg _ hp] at hf
    by_cases hid : h.id = id
    · have hsty : ¬ ((h.zip.getD 0 0 >>> 2 != 1) == !pr) = true := by
        intro hs
        exact hp (cs_prefP_parts hid hs)
      simp only [cs_select]
      rw [if_pos hid, if_neg hsty]
      rw [ih _ hf]
      have hidm : cs_idP id h = true := beq_iff_eq.mpr hid
      rw [List.find?_cons_of_pos _ hidm]
      cases j <;> simp
    · simp only [cs_select]
      rw [if_neg hid]
      rw [ih _ hf]
      have hidm : ¬ cs_idP id h = true := by
        intro hh
        exact hid (beq_iff_eq.mp hh)
      rw [List.find?_cons_of_neg _ hidm]

/-! Output-loop lemmas for cs_zip_to_str. -/

theorem cs_zip_go_of_lt (sep : Char) : ∀ (ix : List Nat) (first : Bool)
    (len n : Nat) (out : List Char),
    (∀ i ∈ ix, i < 36) → len + (cs_zip_go_free sep ix first).length < n →
    cs_zip_go n sep ix first len out = some (out ++ cs_zip_go_free sep ix first) := by
  intro ix
  induction ix with
  | nil =>
    intro first len n out _ _
    simp [cs_zip_go, cs_zip_go_free]
  | cons idx rest ih =>
    intro first len n out hv hlen
    by_cases h0 : idx = 0
    · subst h0
      simp [cs_zip_go, cs_zip_go_free]
    · have hfree : cs_zip_go_free sep (idx :: rest) first =
          ((if first then [] else [sep]) ++ cs_tokens.getD idx []) ++
            cs_zip_go_free sep rest false := by
        simp [cs_zip_go_free, h0]
    
      rw [hfree] at hlen
      rw [List.length_append, List.length_append] at hlen
      have hlt : len < n := by omega
      have h36 : ¬ 36 ≤ idx := by
        have := hv idx (List.mem_cons_self _ _)
        omega
      simp only [cs_zip_go]
      rw [if_neg (by push_neg; exact ⟨h0, hlt⟩)]
      rw [if_neg h36]
      rw [if_pos (by rw [List.length_append]; omega)]
      rw [ih false (len + ((if first then [] else [sep]) ++ cs_tokens.getD idx []).length) n
        (out ++ ((if first then [] else [sep]) ++ cs_tokens.getD idx []))
        (fun i hi => hv i (List.mem_cons_of_mem _ hi))
        (by rw [List.length_append]; omega)]
      rw [hfree, List.append_assoc]

theorem cs_zip_go_some (sep : Char) : ∀ (ix : List Nat) (first : Bool)
    (len n : Nat) (out s : List Char),
    len < n → cs_zip_go n sep ix first len out = some s →
    s = out ++ cs_zip_go_free sep ix first ∧
    len + (cs_zip_go_free sep ix first).length < n := by
  intro ix
  induction ix with
  | nil =>
    intro first len n out s hlt hgo
    simp only [cs_zip_go, Option.some.injEq] at hgo
    simp [cs_zip_go_free, ← hgo, hlt]
  | cons idx rest ih =>
    intro first len n out s hlt hgo
    by_cases h0 : idx = 0
    · subst h0
      simp only [cs_zip_go, true_or, if_pos, Option.some.injEq] at hgo
      simp [cs_zip_go_free, ← hgo, hlt]
    · simp only [cs_zip_go] at hgo
      rw [if_neg (by push_neg; exact ⟨h0, hlt⟩)] at hgo
      by_cases h36 : 36 ≤ idx
      · rw [if_pos h36] at hgo
        cases hgo
      · rw [if_neg h36] at hgo
        by_cases hc : ((if first then [] else [sep]) ++ cs_tokens.getD idx []).length + 1 ≤
            n - len
        · rw [if_pos hc] at hgo
          have hlt2 : len + ((if first then [] else [sep]) ++ cs_tokens.getD idx []).length
              < n := by omega
          obtain ⟨hs, hl⟩ := ih false _ n _ s hlt2 hgo
          have hfree : cs_zip_go_free sep (idx :: rest) first =
              ((if first then [] else [sep]) ++ cs_tokens.getD idx []) ++
                cs_zip_go_free sep rest false := by
            simp [cs_zip_go_free, h0]
          rw [hfree, List.length_append]
          constructor
          · rw [hs, List.append_assoc]
          · omega
        · rw [if_neg hc] at hgo
          cases hgo

theorem cs_zip_to_str_big {zip : List Nat} (hv : ∀ i ∈ cs_unzip zip, i < 36)
    {n : Nat} (hn : (cs_free_name zip).length < n) :
    cs_zip_to_str zip n = some (cs_free_name zip) := by
  unfold cs_zip_to_str
  have := cs_zip_go_of_lt (if (cs_unzip zip).getD 0 0 = 1 then '_' else '-')
    (cs_unzip zip) true 0 n [] hv (by simpa [cs_free_name] using hn)
  simpa [cs_free_name] using this

theorem cs_zip_to_str_small {zip : List Nat} {n : Nat} (h0 : 0 < n)
    (hn : n ≤ (cs_free_name zip).length) : cs_zip_to_str zip n = none := by
  cases hs : cs_zip_to_str zip n with
  | none => rfl
  | some s =>
    unfold cs_zip_to_str at hs
    obtain ⟨-, hl⟩ := cs_zip_go_some (if (cs_unzip zip).getD 0 0 = 1 then '_' else '-')
      (cs_unzip zip) true 0 n [] s h0 hs
    unfold cs_free_name at hn
    omega

/-! Field-splitting lemmas. -/

theorem cs_split_ne_nil (sep : Char) (s : List Char) : cs_split sep s ≠ [] := by
  induction s with
  | nil => simp [cs_split]
  | cons c cs ih =>
    simp only [cs_split]
    split
    · simp
    · split
      · simp
      · simp

theorem cs_split_length (sep : Char) (s : List Char) :
    (cs_split sep s).length = s.count sep + 1 := by
  induction s with
  | nil => simp [cs_split]
  | cons c cs ih =>
    simp only [cs_split]
    by_cases hc : c = sep
    · rw [if_pos hc]
      simp only [List.length_cons, ih, List.count_cons]
      simp [hc]
    · rw [if_neg hc]
      cases h : cs_split sep cs with
      | nil => exact absurd h (cs_split_ne_nil sep cs)
      | cons f fs =>
        rw [h] at ih
        simp only [List.length_cons] at ih ⊢
        simp only [List.count_cons, ih]
        have h2 : ¬ sep = c := fun hh => hc hh.symm
        simp [h2, hc]

theorem cs_split_mem (sep : Char) (s : List Char) (c : Char)
    (hc : c ∈ s) (hne : c ≠ sep) : ∃ f ∈ cs_split sep s, c ∈ f := by
  induction s with
  | nil => cases hc
  | cons a as ih =>
    by_cases ha : a = sep
    · have hc2 : c ∈ as := by
        rcases List.mem_cons.mp hc with rfl | h2
        · exact absurd ha hne
        · exact h2
      obtain ⟨f, hf, hcf⟩ := ih hc2
      refine ⟨f, ?_, hcf⟩
      simp only [cs_split, if_pos ha]
      exact List.mem_cons_of_mem _ hf
    · cases h : cs_split sep as with
      | nil => exact absurd h (cs_split_ne_nil sep as)
      | cons f fs =>
        rcases List.mem_cons.mp hc with rfl | h2
        · refine ⟨c :: f, ?_, List.mem_cons_self _ _⟩
          simp [cs_split, if_neg ha, h]
        · obtain ⟨g, hg, hcg⟩ := ih h2
          rw [h] at hg
          rcases List.mem_cons.mp hg with rfl | hg2
          · refine ⟨a :: g, ?_, List.mem_cons_of_mem _ hcg⟩
            simp [cs_split, if_neg ha, h]
          · refine ⟨g, ?_, hcg⟩
            simp only [cs_split, if_neg ha, h]
            exact List.mem_cons_of_mem _ hg2

/-! Lemmas about the field-resolution loop. -/

theorem cs_find_token_nil : cs_find_token [] = none := by decide

theorem cs_find_go_mem : ∀ (ts : List (List Char)) (i : Nat) (f : List Char) (k : Nat),
    cs_find_go ts i f = some k → ∃ t ∈ ts, cs_caseeq t f = true := by
  intro ts
  induction ts with
  | nil => intro i f k h; cases h
  | cons t rest ih =>
    intro i f k h
    simp only [cs_find_go] at h
    by_cases hc : cs_caseeq t f = true
    · exact ⟨t, List.mem_cons_self _ _, hc⟩
    · rw [if_neg hc] at h
      obtain ⟨u, hu, hcu⟩ := ih (i + 1) f k h
      exact ⟨u, List.mem_cons_of_mem _ hu, hcu⟩

theorem cs_fields_to_idx_too_many : ∀ (fs : List (List Char)) (i : Nat),
    i ≤ 8 → 8 < i + fs.length → ∃ er, cs_fields_to_idx fs i = .error er := by
  intro fs
  induction fs with
  | nil =>
    intro i h8 hlen
    simp only [List.length_nil, Nat.add_zero] at hlen
    omega
  | cons f rest ih =>
    intro i h8 hlen
    by_cases hi : i = 8
    · exact ⟨.tooMany, by simp [cs_fields_to_idx, hi]⟩
    · cases hft : cs_find_token f with
      | none => exact ⟨.unknownToken, by simp [cs_fields_to_idx, hi, hft]⟩
      | some idx =>
        obtain ⟨er, her⟩ := ih (i + 1) (by omega)
          (by simp only [List.length_cons] at hlen; omega)
        exact ⟨er, by simp [cs_fields_to_idx, hi, hft, her]⟩

theorem cs_fields_to_idx_le8 : ∀ (fs : List (List Char)) (i : Nat),
    i + fs.length ≤ 8 → cs_fields_to_idx fs i ≠ .error .tooMany := by
  intro fs
  induction fs with
  | nil =>
    intro i h hcontra
    simp [cs_fields_to_idx] at hcontra
  | cons f rest ih =>
    intro i h hcontra
    simp only [List.length_cons] at h
    have hi : ¬ i = 8 := by omega
    simp only [cs_fields_to_idx, if_neg hi] at hcontra
    cases hft : cs_find_token f with
    | none =>
      rw [hft] at hcontra
      cases hcontra
    | some idx =>
      rw [hft] at hcontra
      cases hrec : cs_fields_to_idx rest (i + 1) with
      | error e =>
        rw [hrec] at hcontra
        have he : e = .tooMany := by
          cases hcontra
          rfl
        exact ih (i + 1) (by omega) (he ▸ hrec)
      | ok l =>
        rw [hrec] at hcontra
        cases hcontra

theorem cs_fields_to_idx_ok : ∀ (fs : List (List Char)) (i : Nat) (l : List Nat),
    cs_fields_to_idx fs i = .ok l → i ≤ 8 →
    (∀ f ∈ fs, ∃ k, cs_find_token f = some k) ∧ i + fs.length ≤ 8 := by
  intro fs
  induction fs with
  | nil =>
    intro i l _ h8
    exact ⟨fun f hf => absurd hf (List.not_mem_nil f), by simpa using h8⟩
  | cons f rest ih =>
    intro i l hok h8
    by_cases hi : i = 8
    · simp [cs_fields_to_idx, hi] at hok
    · simp only [cs_fields_to_idx, if_neg hi] at hok
      cases hft : cs_find_token f with
      | none =>
        rw [hft] at hok
        cases hok
      | some idx =>
        rw [hft] at hok
        cases hrec : cs_fields_to_idx rest (i + 1) with
        | error e =>
          rw [hrec] at hok
          cases hok
        | ok l2 =>
          obtain ⟨hall, hlen⟩ := ih (i + 1) l2 hrec (by omega)
          constructor
          · intro g hg
            rcases List.mem_cons.mp hg with rfl | hg2
            · exact ⟨idx, hft⟩
            · exact hall g hg2
          · simp only [List.length_cons]
            omega

theorem cs_fields_to_idx_empty : ∀ (fs : List (List Char)) (i : Nat),
    [] ∈ fs → i ≤ 8 → ∃ er, cs_fields_to_idx fs i = .error er := by
  intro fs
  induction fs with
  | nil => intro i h; cases h
  | cons f rest ih =>
    intro i hmem h8
    by_cases hi : i = 8
    · exact ⟨.tooMany, by simp [cs_fields_to_idx, hi]⟩
    · cases hft : cs_find_token f with
      | none => exact ⟨.unknownToken, by simp [cs_fields_to_idx, hi, hft]⟩
      | some idx =>
        have hmem2 : [] ∈ rest := by
          rcases List.mem_cons.mp hmem with hnil | h2
          · rw [← hnil] at hft
            rw [cs_find_token_nil] at hft
            cases hft
          · exact h2
        obtain ⟨er, her⟩ := ih (i + 1) hmem2 (by omega)
        exact ⟨er, by simp [cs_fields_to_idx, hi, hft, her]⟩

/-! Joining tokens with a dash. -/

theorem cs_join_no_nul : ∀ (ts : List (List Char)), (∀ t ∈ ts, '\x00' ∉ t) →
    '\x00' ∉ cs_join_sep '-' ts := by
  intro ts
  induction ts with
  | nil => intro _; simp [cs_join_sep]
  | cons t rest ih =>
    intro h
    cases rest with
    | nil =>
      simpa [cs_join_sep] using h t (List.mem_cons_self _ _)
    | cons u us =>
      simp only [cs_join_sep, List.mem_append, List.mem_cons]
      push_neg
      refine ⟨h t (List.mem_cons_self _ _), by decide, ?_⟩
      have := ih (fun x hx => h x (List.mem_cons_of_mem _ hx))
      simpa [cs_join_sep] using this

theorem cs_join_count : ∀ (ts : List (List Char)),
    ts.length ≤ (cs_join_sep '-' ts).count '-' + 1 := by
  intro ts
  induction ts with
  | nil => simp [cs_join_sep]
  | cons t rest ih =>
    cases rest with
    | nil => simp [cs_join_sep]
    | cons u us =>
      simp only [cs_join_sep, List.count_append, List.count_cons_self, List.length_cons] at ih ⊢
      omega

theorem cs_join_len_pos : ∀ (ts : List (List Char)), ts.length = 9 →
    0 < (cs_join_sep '-' ts).length := by
  intro ts h
  cases ts with
  | nil => simp at h
  | cons t rest =>
    cases rest with
    | nil => simp at h
    | cons u us =>
      simp only [cs_join_sep, List.length_append, List.length_cons]
      omega

theorem cs_tokens_no_dash : ∀ t ∈ cs_tokens, ∀ d ∈ t, cs_upper d ≠ 45 := by decide

theorem cs_find_token_no_dash {f : List Char} {k : Nat}
    (h : cs_find_token f = some k) : '-' ∉ f := by
  intro hd
  obtain ⟨t, ht, hc⟩ := cs_find_go_mem _ _ _ _ h
  have ht2 : t ∈ cs_tokens := List.mem_of_mem_drop ht
  obtain ⟨d, hdt, hu⟩ := cs_caseeq_mem hc hd
  exact cs_tokens_no_dash t ht2 d hdt (by rw [hu]; decide)

/-! Tokenizer loop lemma. -/

theorem cs_skip_go_all : ∀ (l : List Char) (i : Nat),
    (∀ c ∈ l, cs_is_separator c = true) → cs_skip_go l i = i + l.length := by
  intro l
  induction l with
  | nil => intro i _; simp [cs_skip_go]
  | cons c rest ih =>
    intro i h
    simp only [cs_skip_go, if_pos (h c (List.mem_cons_self _ _))]
    rw [ih (i + 1) (fun x hx => h x (List.mem_cons_of_mem _ hx))]
    simp only [List.length_cons]
    omega

/-! Case-insensitivity: everything cs_str_to_zip computes depends only on
the case-normalised characters of the input. -/

theorem cs_starts_tls_eq_map : ∀ s : List Char, cs_starts_tls s =
    (match s.map cs_upper with
     | x :: y :: z :: _ => x == 84 && y == 76 && z == 83
     | _ => false) := by
  intro s
  match s with
  | [] => rfl
  | [_] => rfl
  | [_, _] => rfl
  | _ :: _ :: _ :: _ => rfl

theorem cs_starts_tls_upper {s t : List Char}
    (h : s.map cs_upper = t.map cs_upper) : cs_starts_tls s = cs_starts_tls t := by
  rw [cs_starts_tls_eq_map, cs_starts_tls_eq_map, h]

theorem cs_upper_ne_zero {a : Char} (ha : ¬ a = '\x00') : ¬ cs_upper a = 0 := by
  intro h0
  exact ha (cs_upper_eq_toNat (by decide) h0)

theorem cs_eff_map : ∀ s : List Char,
    (cs_eff s).map cs_upper = (s.map cs_upper).takeWhile (fun x => x ≠ 0) := by
  intro s
  induction s with
  | nil => rfl
  | cons a as ih =>
    simp only [cs_eff] at ih ⊢
    simp only [List.map_cons, List.takeWhile_cons]
    have hiff : (decide (a ≠ '\x00')) = (decide (cs_upper a ≠ 0)) := by
      by_cases ha : a = '\x00'
      · subst ha
        decide
      · simp [ha, cs_upper_ne_zero ha]
    rw [← hiff]
    by_cases hd : decide (a ≠ '\x00') = true
    · rw [if_pos hd, if_pos hd]
      simp only [ne_eq, decide_not] at ih ⊢
      simp [ih]
    · rw [if_neg hd, if_neg hd]
      rfl

theorem cs_split_upper (sep : Char)
    (hsep : ∀ x y : Char, cs_upper x = cs_upper y → (x = sep ↔ y = sep)) :
    ∀ (s t : List Char), s.map cs_upper = t.map cs_upper →
    (cs_split sep s).map (List.map cs_upper) =
      (cs_split sep t).map (List.map cs_upper) := by
  intro s
  induction s with
  | nil =>
    intro t h
    cases t with
    | nil => rfl
    | cons b bs => simp at h
  | cons a as ih =>
    intro t h
    cases t with
    | nil => simp at h
    | cons b bs =>
      simp only [List.map_cons, List.cons.injEq] at h
      obtain ⟨hab, htail⟩ := h
      by_cases ha : a = sep
      · have hb : b = sep := (hsep a b hab).mp ha
        simp only [cs_split, if_pos ha, if_pos hb, List.map_cons]
        rw [ih bs htail]
      · have hb : ¬ b = sep := fun hbs => ha ((hsep a b hab).mpr hbs)
        simp only [cs_split, if_neg ha, if_neg hb]
        cases hsa : cs_split sep as with
        | nil => exact absurd hsa (cs_split_ne_nil sep as)
        | cons f fs =>
          cases hsb : cs_split sep bs with
          | nil => exact absurd hsb (cs_split_ne_nil sep bs)
          | cons g gs =>
            have hih := ih bs htail
            rw [hsa, hsb] at hih
            simp only [List.map_cons, List.cons.injEq] at hih ⊢
            exact ⟨by simp [hab, hih.1], hih.2⟩

theorem cs_sep_upper_iff : ∀ (sep : Char), sep = '-' ∨ sep = '_' →
    ∀ x y : Char, cs_upper x = cs_upper y → (x = sep ↔ y = sep) := by
  intro sep hs x y hxy
  rcases hs with rfl | rfl
  · exact cs_upper_eq_iff hxy (by decide) (by decide)
  · exact cs_upper_eq_iff hxy (by decide) (by decide)

theorem cs_fields_upper {s t : List Char} (h : s.map cs_upper = t.map cs_upper) :
    (cs_fields s).map (List.map cs_upper) = (cs_fields t).map (List.map cs_upper) := by
  unfold cs_fields cs_sep_of
  rw [cs_starts_tls_upper h]
  have heff : (cs_eff s).map cs_upper = (cs_eff t).map cs_upper := by
    rw [cs_eff_map, cs_eff_map, h]
  by_cases hts : cs_starts_tls t = true
  · rw [if_pos hts]
    exact cs_split_upper '_' (cs_sep_upper_iff '_' (Or.inr rfl)) _ _ heff
  · rw [if_neg hts]
    exact cs_split_upper '-' (cs_sep_upper_iff '-' (Or.inl rfl)) _ _ heff

theorem cs_caseeq_upper : ∀ (t f g : List Char),
    f.map cs_upper = g.map cs_upper → cs_caseeq t f = cs_caseeq t g := by
  intro t
  induction t with
  | nil =>
    intro f g h
    cases f with
    | nil =>
      cases g with
      | nil => rfl
      | cons y ys => simp at h
    | cons x xs =>
      cases g with
      | nil => simp at h
      | cons y ys => rfl
  | cons a as ih =>
    intro f g h
    cases f with
    | nil =>
      cases g with
      | nil => rfl
      | cons y ys => simp at h
    | cons x xs =>
      cases g with
      | nil => simp at h
      | cons y ys =>
        simp only [List.map_cons, List.cons.injEq] at h
        simp only [cs_caseeq]
        rw [h.1, ih xs ys h.2]

theorem cs_find_go_upper : ∀ (ts : List (List Char)) (i : Nat) (f g : List Char),
    f.map cs_upper = g.map cs_upper → cs_find_go ts i f = cs_find_go ts i g := by
  intro ts
  induction ts with
  | nil => intro i f g _; rfl
  | cons t rest ih =>
    intro i f g h
    simp only [cs_find_go]
    rw [cs_caseeq_upper t f g h]
    by_cases hc : cs_caseeq t g = true
    · rw [if_pos hc, if_pos hc]
    · rw [if_neg hc, if_neg hc]
      exact ih (i + 1) f g h

theorem cs_fields_to_idx_upper : ∀ (fs gs : List (List Char)) (i : Nat),
    fs.map (List.map cs_upper) = gs.map (List.map cs_upper) →
    cs_fields_to_idx fs i = cs_fields_to_idx gs i := by
  intro fs
  induction fs with
  | nil =>
    intro gs i h
    cases gs with
    | nil => rfl
    | cons g gs2 => simp at h
  | cons f fs2 ih =>
    intro gs i h
    cases gs with
    | nil => simp at h
    | cons g gs2 =>
      simp only [List.map_cons, List.cons.injEq] at h
      simp only [cs_fields_to_idx]
      by_cases hi : i = 8
      · rw [if_pos hi, if_pos hi]
      · rw [if_neg hi, if_neg hi]
        have hft : cs_find_token f = cs_find_token g := cs_find_go_upper _ 1 f g h.1
        rw [hft, ih gs2 (i + 1) h.2]

theorem cs_str_to_zip_upper {s t : List Char} (h : s.map cs_upper = t.map cs_upper) :
    cs_str_to_zip s = cs_str_to_zip t := by
  unfold cs_str_to_zip
  rw [cs_fields_to_idx_upper _ _ 0 (cs_fields_upper h)]

theorem cs_lookup_upper {s t : List Char} (h : s.map cs_upper = t.map cs_upper)
    (n : Nat) : Curl_cipher_suite_lookup_id s n = Curl_cipher_suite_lookup_id t n := by
  unfold Curl_cipher_suite_lookup_id
  have htake : (s.take n).map cs_upper = (t.take n).map cs_upper := by
    rw [List.map_take, List.map_take, h]
  rw [cs_str_to_zip_upper htake]

/-! Glue lemmas tying the public functions to the loop lemmas. -/

theorem cs_lookup_ok {s : List Char} {n : Nat} {z : List Nat} (h0 : 0 < n)
    (hz : cs_str_to_zip (s.take n) = .ok z) :
    Curl_cipher_suite_lookup_id s n =
      (match cs_list.find? (fun e => e.zip == z) with
       | some e => e.id
       | none => 0) := by
  unfold Curl_cipher_suite_lookup_id
  rw [if_pos h0, hz]

theorem cs_lookup_err {s : List Char} {n : Nat} {er : CsErr}
    (hz : cs_str_to_zip (s.take n) = .error er) :
    Curl_cipher_suite_lookup_id s n = 0 := by
  unfold Curl_cipher_suite_lookup_id
  by_cases h0 : 0 < n
  · rw [if_pos h0, hz]
  · rw [if_neg h0]

theorem cs_prefP_unique (id : Nat) (pr : Bool) :
    ∀ a ∈ cs_list, ∀ b ∈ cs_list,
    cs_prefP id pr a = true → cs_prefP id pr b = true → a = b := by
  intro a ha b hb hpa hpb
  apply cs_key2_inj a ha b hb
  simp only [cs_prefP, Bool.and_eq_true, beq_iff_eq] at hpa hpb
  unfold cs_key2
  rw [hpa.1, hpb.1]
  have hbit : (a.zip.getD 0 0 >>> 2 != 1) = (b.zip.getD 0 0 >>> 2 != 1) := by
    rw [hpa.2, hpb.2]
  have hbeq : (a.zip.getD 0 0 >>> 2 == 1) = (b.zip.getD 0 0 >>> 2 == 1) := by
    have := congrArg (fun x => !x) hbit
    simpa [bne] using this
  congr 1
  by_cases h1 : a.zip.getD 0 0 >>> 2 = 1
  · rw [if_pos h1, if_pos (beq_iff_eq.mp (by rw [← hbeq]; exact beq_iff_eq.mpr h1))]
  · rw [if_neg h1, if_neg (fun hh => h1 (beq_iff_eq.mp (by rw [hbeq]; exact beq_iff_eq.mpr hh)))]

theorem cs_zipP_unique (z : List Nat) :
    ∀ a ∈ cs_list, ∀ b ∈ cs_list,
    (a.zip == z) = true → (b.zip == z) = true → a = b := by
  intro a ha b hb hpa hpb
  apply cs_key_inj a ha b hb
  unfold cs_key
  rw [beq_iff_eq.mp hpa, beq_iff_eq.mp hpb]

theorem cs_sel_self : ∀ e ∈ cs_list, cs_select cs_list e.id (cs_style e) none = some e := by
  intro e he
  apply cs_select_of_pref
  apply cs_find_unique cs_list e he
  · apply cs_prefP_parts rfl
    have hz : (cs_unzip e.zip).getD 0 0 = e.zip.getD 0 0 >>> 2 := rfl
    unfold cs_style
    rw [hz]
    simp [bne]
  · exact cs_prefP_unique e.id (cs_style e)

theorem cs_join_dash_mem : ∀ (ts : List (List Char)), 2 ≤ ts.length →
    '-' ∈ cs_join_sep '-' ts := by
  intro ts h
  cases ts with
  | nil => simp at h
  | cons t rest =>
    cases rest with
    | nil => simp at h
    | cons u us =>
      simp [cs_join_sep, List.mem_append]

theorem cs_starts_tls_short : ∀ l : List Char, l.length < 3 → cs_starts_tls l = false := by
  intro l h
  match l with
  | [] => rfl
  | [_] => rfl
  | [_, _] => rfl
  | _ :: _ :: _ :: _ => simp at h; omega

/-- C1: for every (identifier, packed-name) entry of cs_list, decoding the
identifier with Curl_cipher_suite_get_str (prefer_rfc matching the entry's
naming style, buffer larger than the display name) writes exactly that
entry's display name and returns success, and encoding that name back with
Curl_cipher_suite_lookup_id returns the original identifier. -/
theorem claim_C1_roundtrip : ∀ e ∈ cs_list, ∀ n : Nat,
    (cs_free_name e.zip).length < n →
    Curl_cipher_suite_get_str e.id n (cs_style e) = (0, cs_free_name e.zip) ∧
    Curl_cipher_suite_lookup_id (cs_free_name e.zip)
      (cs_free_name e.zip).length = e.id := by
  intro e he n hn
  refine ⟨?_, ?_⟩
  · unfold Curl_cipher_suite_get_str
    rw [cs_sel_self e he]
    show (match cs_zip_to_str e.zip n with
          | some s => ((0 : Int), s)
          | none => (-1, cs_fallback e.id n)) = ((0 : Int), cs_free_name e.zip)
    rw [cs_zip_to_str_big (cs_list_valid e he) hn]
  · obtain ⟨henc, hne⟩ := cs_list_names e he
    have h0 : 0 < (cs_free_name e.zip).length := Nat.pos_of_ne_zero hne
    rw [cs_lookup_ok h0 (by rw [List.take_length]; exact henc)]
    rw [@cs_find_unique (fun x => x.zip == e.zip) cs_list e he
      (beq_iff_eq.mpr rfl) (cs_zipP_unique e.zip)]

theorem claim_C1_roundtrip_witness :
    (CS_ENTRY 0x002F CS_TXT_IDX_TLS CS_TXT_IDX_RSA CS_TXT_IDX_WITH CS_TXT_IDX_AES CS_TXT_IDX_128 CS_TXT_IDX_CBC CS_TXT_IDX_SHA CS_TXT_IDX_) ∈ cs_list ∧
    (cs_free_name (CS_ENTRY 0x002F CS_TXT_IDX_TLS CS_TXT_IDX_RSA CS_TXT_IDX_WITH CS_TXT_IDX_AES CS_TXT_IDX_128 CS_TXT_IDX_CBC CS_TXT_IDX_SHA CS_TXT_IDX_).zip).length < 64 ∧
    (Curl_cipher_suite_get_str (CS_ENTRY 0x002F CS_TXT_IDX_TLS CS_TXT_IDX_RSA CS_TXT_IDX_WITH CS_TXT_IDX_AES CS_TXT_IDX_128 CS_TXT_IDX_CBC CS_TXT_IDX_SHA CS_TXT_IDX_).id 64
        (cs_style (CS_ENTRY 0x002F CS_TXT_IDX_TLS CS_TXT_IDX_RSA CS_TXT_IDX_WITH CS_TXT_IDX_AES CS_TXT_IDX_128 CS_TXT_IDX_CBC CS_TXT_IDX_SHA CS_TXT_IDX_)) =
        (0, cs_free_name (CS_ENTRY 0x002F CS_TXT_IDX_TLS CS_TXT_IDX_RSA CS_TXT_IDX_WITH CS_TXT_IDX_AES CS_TXT_IDX_128 CS_TXT_IDX_CBC CS_TXT_IDX_SHA CS_TXT_IDX_).zip) ∧
      Curl_cipher_suite_lookup_id
        (cs_free_name (CS_ENTRY 0x002F CS_TXT_IDX_TLS CS_TXT_IDX_RSA CS_TXT_IDX_WITH CS_TXT_IDX_AES CS_TXT_IDX_128 CS_TXT_IDX_CBC CS_TXT_IDX_SHA CS_TXT_IDX_).zip)
        (cs_free_name (CS_ENTRY 0x002F CS_TXT_IDX_TLS CS_TXT_IDX_RSA CS_TXT_IDX_WITH CS_TXT_IDX_AES CS_TXT_IDX_128 CS_TXT_IDX_CBC CS_TXT_IDX_SHA CS_TXT_IDX_).zip).length =
        (CS_ENTRY 0x002F CS_TXT_IDX_TLS CS_TXT_IDX_RSA CS_TXT_IDX_WITH CS_TXT_IDX_AES CS_TXT_IDX_128 CS_TXT_IDX_CBC CS_TXT_IDX_SHA CS_TXT_IDX_).id) :=
  ⟨by decide, by decide, claim_C1_roundtrip _ (by decide) 64 (by decide)⟩

/-- C2 counterexample: the claim says an empty field maps to index 0 and the
encode does not fail. On the input AES128--SHA, whose three fields are
AES128, the empty field and SHA (all non-empty fields dictionary tokens,
at most 8 fields), cs_str_to_zip fails with an unknown-token error because
no zero-length token exists in the dictionary, and the id lookup yields 0. -/
theorem claim_C2_empty_field_cex :
    cs_fields ("AES128--SHA".data) = ["AES128".data, [], "SHA".data] ∧
    cs_str_to_zip ("AES128--SHA".data) = .error .unknownToken ∧
    Curl_cipher_suite_lookup_id ("AES128--SHA".data) 11 = 0 :=
  ⟨by decide, by decide, by decide⟩

/-- C2 amended: a zero-length field never matches any dictionary token, so
an input whose field split contains an empty field always fails to encode
(the error is the unknown-token failure at the first empty or unknown
field, or the too-many-fields failure), rather than mapping the empty
field to index 0. -/
theorem claim_C2_amended : ∀ s : List Char, [] ∈ cs_fields s →
    ∃ er, cs_str_to_zip s = .error er := by
  intro s hmem
  obtain ⟨er, her⟩ := cs_fields_to_idx_empty (cs_fields s) 0 hmem (by omega)
  exact ⟨er, by unfold cs_str_to_zip; rw [her]⟩

theorem claim_C2_amended_witness :
    ([] ∈ cs_fields ("AES128--SHA".data)) ∧
    (∃ er, cs_str_to_zip ("AES128--SHA".data) = .error er) :=
  ⟨by decide, claim_C2_amended _ (by decide)⟩

/-- C3 counterexample: the claim says every buffer too small for the name
makes Curl_cipher_suite_get_str report failure and write the fallback.
With buf_size = 0 (too small for any name) the output loop of
cs_zip_to_str never runs, the function returns 0 (success) and nothing at
all is written. -/
theorem claim_C3_cex : Curl_cipher_suite_get_str 0x002F 0 false = (0, []) := by
  decide

/-- C3 amended: for a positive buffer size that cannot hold the chosen
entry's display name, Curl_cipher_suite_get_str reports failure (-1) and
the buffer receives the TLS_UNKNOWN_0x%04x fallback truncated to fit;
only buf_size = 0 escapes with a spurious success. -/
theorem claim_C3_amended (id : Nat) (pr : Bool) (ch : cs_entry)
    (hsel : cs_select cs_list id pr none = some ch)
    (n : Nat) (h0 : 0 < n) (hn : n ≤ (cs_free_name ch.zip).length) :
    Curl_cipher_suite_get_str id n pr = (-1, cs_fallback id n) := by
  unfold Curl_cipher_suite_get_str
  rw [hsel]
  show (match cs_zip_to_str ch.zip n with
        | some s => ((0 : Int), s)
        | none => (-1, cs_fallback id n)) = (-1, cs_fallback id n)
  rw [cs_zip_to_str_small h0 hn]

theorem claim_C3_amended_witness :
    cs_select cs_list 0x002F false none =
      some (CS_ENTRY 0x002F CS_TXT_IDX_AES128 CS_TXT_IDX_SHA CS_TXT_IDX_ CS_TXT_IDX_ CS_TXT_IDX_ CS_TXT_IDX_ CS_TXT_IDX_ CS_TXT_IDX_) ∧
    0 < 5 ∧
    5 ≤ (cs_free_name (CS_ENTRY 0x002F CS_TXT_IDX_AES128 CS_TXT_IDX_SHA CS_TXT_IDX_ CS_TXT_IDX_ CS_TXT_IDX_ CS_TXT_IDX_ CS_TXT_IDX_ CS_TXT_IDX_).zip).length ∧
    Curl_cipher_suite_get_str 0x002F 5 false = (-1, cs_fallback 0x002F 5) :=
  ⟨by decide, by decide, by decide,
    claim_C3_amended 0x002F false
      (CS_ENTRY 0x002F CS_TXT_IDX_AES128 CS_TXT_IDX_SHA CS_TXT_IDX_ CS_TXT_IDX_ CS_TXT_IDX_ CS_TXT_IDX_ CS_TXT_IDX_ CS_TXT_IDX_)
      (by decide) 5 (by decide) (by decide)⟩

/-- C4: the selection loop of Curl_cipher_suite_get_str returns the first
table entry with the requested id whose naming style matches prefer_rfc
(first token TLS iff prefer_rfc), and falls back to the first entry with
the id when no entry of the preferred style exists; id 0x1301 with
prefer_rfc = false still yields TLS_AES_128_GCM_SHA256, and the unknown id
0xFFFF yields the TLS_UNKNOWN_0xffff fallback with failure reported. -/
theorem claim_C4_selection :
    (∀ (id : Nat) (pr : Bool),
      cs_select cs_list id pr none =
        match cs_list.find? (cs_prefP id pr) with
        | some e => some e
        | none => cs_list.find? (cs_idP id)) ∧
    Curl_cipher_suite_get_str 0x1301 64 true = (0, "TLS_AES_128_GCM_SHA256".data) ∧
    Curl_cipher_suite_get_str 0x1301 64 false = (0, "TLS_AES_128_GCM_SHA256".data) ∧
    Curl_cipher_suite_get_str 0xFFFF 64 true = (-1, "TLS_UNKNOWN_0xffff".data) := by
  refine ⟨?_, by decide, by decide, by decide⟩
  intro id pr
  cases hf : cs_list.find? (cs_prefP id pr) with
  | some e => exact cs_select_of_pref id pr cs_list none e hf
  | none => exact cs_select_of_nopref id pr cs_list none hf

/-- C5: splitting into more than 8 fields always makes cs_str_to_zip fail;
at most 8 fields never produce the too-many-fields failure; and any name
made of 9 tokens (NUL-free, as C strings are) joined by the dash resolves
to 0 through Curl_cipher_suite_lookup_id. -/
theorem claim_C5_field_limit :
    (∀ s : List Char, 8 < (cs_fields s).length → ∃ er, cs_str_to_zip s = .error er) ∧
    (∀ s : List Char, (cs_fields s).length ≤ 8 → cs_str_to_zip s ≠ .error .tooMany) ∧
    (∀ ts : List (List Char), ts.length = 9 → (∀ t ∈ ts, '\x00' ∉ t) →
      Curl_cipher_suite_lookup_id (cs_join_sep '-' ts)
        (cs_join_sep '-' ts).length = 0) := by
  refine ⟨?_, ?_, ?_⟩
  · intro s h8
    obtain ⟨er, her⟩ := cs_fields_to_idx_too_many (cs_fields s) 0 (by omega) (by omega)
    exact ⟨er, by unfold cs_str_to_zip; rw [her]⟩
  · intro s h8 hcontra
    unfold cs_str_to_zip at hcontra
    cases hft : cs_fields_to_idx (cs_fields s) 0 with
    | error e =>
      rw [hft] at hcontra
      have he : e = .tooMany := by
        cases hcontra
        rfl
      exact cs_fields_to_idx_le8 (cs_fields s) 0 (by omega) (he ▸ hft)
    | ok l =>
      rw [hft] at hcontra
      cases hcontra
  · intro ts h9 hnul
    have htake : (cs_join_sep '-' ts).take (cs_join_sep '-' ts).length =
        cs_join_sep '-' ts := List.take_length _
    have heff : cs_eff (cs_join_sep '-' ts) = cs_join_sep '-' ts := by
      unfold cs_eff
      apply List.takeWhile_eq_self_iff.mpr
      intro c hc
      simp only [decide_eq_true_eq]
      intro hcn
      exact cs_join_no_nul ts hnul (hcn ▸ hc)
    cases hz : cs_str_to_zip (cs_join_sep '-' ts) with
    | error er =>
      exact cs_lookup_err (by rw [htake]; exact hz)
    | ok z =>
      exfalso
      unfold cs_str_to_zip at hz
      cases hft : cs_fields_to_idx (cs_fields (cs_join_sep '-' ts)) 0 with
      | error e =>
        rw [hft] at hz
        cases hz
      | ok l =>
        obtain ⟨hall, hlen8⟩ := cs_fields_to_idx_ok _ 0 l hft (by omega)
        by_cases htls : cs_starts_tls (cs_join_sep '-' ts) = true
        · have hdash : '-' ∈ cs_join_sep '-' ts := cs_join_dash_mem ts (by omega)
          have hfields : cs_fields (cs_join_sep '-' ts) =
              cs_split '_' (cs_join_sep '-' ts) := by
            unfold cs_fields cs_sep_of
            rw [if_pos htls, heff]
          obtain ⟨f, hf, hdf⟩ :=
            cs_split_mem '_' (cs_join_sep '-' ts) '-' hdash (by decide)
          rw [hfields] at hall
          obtain ⟨k, hk⟩ := hall f hf
          exact cs_find_token_no_dash hk hdf
        · have hcount : 9 ≤ (cs_join_sep '-' ts).count '-' + 1 := h9 ▸ cs_join_count ts
          have hfields : cs_fields (cs_join_sep '-' ts) =
              cs_split '-' (cs_join_sep '-' ts) := by
            unfold cs_fields cs_sep_of
            rw [if_neg htls, heff]
          rw [hfields, cs_split_length] at hlen8
          omega

theorem claim_C5_field_limit_witness :
    (List.replicate 9 ("AES".data)).length = 9 ∧
    (∀ t ∈ List.replicate 9 ("AES".data), '\x00' ∉ t) ∧
    Curl_cipher_suite_lookup_id (cs_join_sep '-' (List.replicate 9 ("AES".data)))
      (cs_join_sep '-' (List.replicate 9 ("AES".data))).length = 0 :=
  ⟨by decide, by decide, claim_C5_field_limit.2.2 _ (by decide) (by decide)⟩

/-- C6: Curl_cipher_suite_lookup_id is case-insensitive — two inputs whose
characters agree after ASCII case normalisation resolve identically — and
the aliases aes128-sha, AES128-SHA and TLS_RSA_WITH_AES_128_CBC_SHA all
resolve to 0x002F. -/
theorem claim_C6_case_insensitive :
    (∀ s t : List Char, s.map cs_upper = t.map cs_upper →
      ∀ n : Nat, Curl_cipher_suite_lookup_id s n = Curl_cipher_suite_lookup_id t n) ∧
    Curl_cipher_suite_lookup_id ("aes128-sha".data) 10 = 0x002F ∧
    Curl_cipher_suite_lookup_id ("AES128-SHA".data) 10 = 0x002F ∧
    Curl_cipher_suite_lookup_id ("TLS_RSA_WITH_AES_128_CBC_SHA".data) 28 = 0x002F :=
  ⟨fun _ _ h n => cs_lookup_upper h n, by decide, by decide, by decide⟩

theorem claim_C6_case_insensitive_witness :
    ("aes128-sha".data).map cs_upper = ("AES128-SHA".data).map cs_upper ∧
    Curl_cipher_suite_lookup_id ("aes128-sha".data) 10 =
      Curl_cipher_suite_lookup_id ("AES128-SHA".data) 10 :=
  ⟨by decide, claim_C6_case_insensitive.1 _ _ (by decide) 10⟩

/-- C7: the result of Curl_cipher_suite_lookup_id depends only on the first
cs_len bytes of the buffer, and an input of length less than 3 is never
treated as beginning with TLS when the separator is chosen. -/
theorem claim_C7_length_bounded :
    (∀ b1 b2 : List Char, ∀ n : Nat, b1.take n = b2.take n →
      Curl_cipher_suite_lookup_id b1 n = Curl_cipher_suite_lookup_id b2 n) ∧
    (∀ b : List Char, ∀ n : Nat, n < 3 → cs_starts_tls (b.take n) = false) := by
  refine ⟨?_, ?_⟩
  · intro b1 b2 n h
    unfold Curl_cipher_suite_lookup_id
    rw [h]
  · intro b n h3
    exact cs_starts_tls_short _ (lt_of_le_of_lt (b.length_take_le n) h3)

theorem claim_C7_length_bounded_witness :
    ("AES128-SHAXX".data).take 10 = ("AES128-SHAYY".data).take 10 ∧
    Curl_cipher_suite_lookup_id ("AES128-SHAXX".data) 10 =
      Curl_cipher_suite_lookup_id ("AES128-SHAYY".data) 10 :=
  ⟨by decide, claim_C7_length_bounded.1 _ _ 10 (by decide)⟩

/-- C8: walking the list AES128-SHA, ECDHE-RSA-AES256-SHA yields 0x002F
from cursor 0 with the end pointer at position 10, then 0xC014 from
cursor 10 with the cursor moved to 12 and the end pointer at position 32,
the terminating NUL of the 32-character input. -/
theorem claim_C8_walk_list :
    Curl_cipher_suite_walk_str ("AES128-SHA, ECDHE-RSA-AES256-SHA".data) 0 =
      (0, 10, 0x002F) ∧
    Curl_cipher_suite_walk_str ("AES128-SHA, ECDHE-RSA-AES256-SHA".data) 10 =
      (12, 32, 0xC014) ∧
    ("AES128-SHA, ECDHE-RSA-AES256-SHA".data).length = 32 :=
  ⟨by decide, by decide, by decide⟩

/-- C9: every cs_list entry unpacks to 8 indexes with no holes (after the
first zero index all indexes are zero) and every index below CS_TXT_LEN,
and two entries with identical packed bytes carry the same identifier. -/
theorem claim_C9_table_wf :
    (∀ e ∈ cs_list, (∀ i ∈ cs_unzip e.zip, i < CS_TXT_LEN) ∧
      cs_no_holes (cs_unzip e.zip) = true) ∧
    (∀ e1 ∈ cs_list, ∀ e2 ∈ cs_list, e1.zip = e2.zip → e1.id = e2.id) := by
  refine ⟨by decide, ?_⟩
  intro e1 h1 e2 h2 hz
  have he : e1 = e2 := cs_key_inj e1 h1 e2 h2 (by unfold cs_key; rw [hz])
  rw [he]

theorem claim_C9_table_wf_witness :
    (CS_ENTRY 0x002F CS_TXT_IDX_TLS CS_TXT_IDX_RSA CS_TXT_IDX_WITH CS_TXT_IDX_AES CS_TXT_IDX_128 CS_TXT_IDX_CBC CS_TXT_IDX_SHA CS_TXT_IDX_) ∈ cs_list ∧
    (CS_ENTRY 0x002F CS_TXT_IDX_TLS CS_TXT_IDX_RSA CS_TXT_IDX_WITH CS_TXT_IDX_AES CS_TXT_IDX_128 CS_TXT_IDX_CBC CS_TXT_IDX_SHA CS_TXT_IDX_).id =
      (CS_ENTRY 0x002F CS_TXT_IDX_TLS CS_TXT_IDX_RSA CS_TXT_IDX_WITH CS_TXT_IDX_AES CS_TXT_IDX_128 CS_TXT_IDX_CBC CS_TXT_IDX_SHA CS_TXT_IDX_).id :=
  ⟨by decide, claim_C9_table_wf.2 _ (by decide) _ (by decide) rfl⟩

/-- C10: a zero-length lookup returns 0 for every buffer, and walking from
a cursor whose tail holds only separator characters moves the cursor to
the terminating NUL, sets the end pointer equal to the cursor and returns
0. -/
theorem claim_C10_empty_input :
    (∀ b : List Char, Curl_cipher_suite_lookup_id b 0 = 0) ∧
    (∀ (s : List Char) (i : Nat), i ≤ s.length →
      (∀ c ∈ s.drop i, cs_is_separator c = true) →
      Curl_cipher_suite_walk_str s i = (s.length, s.length, 0)) := by
  refine ⟨fun b => rfl, ?_⟩
  intro s i hi hsep
  have hskip : cs_skip s i = s.length := by
    unfold cs_skip
    rw [cs_skip_go_all (s.drop i) i hsep, List.length_drop]
    omega
  have hscan : cs_scan_end s s.length = s.length := by
    unfold cs_scan_end
    rw [List.drop_length]
    rfl
  unfold Curl_cipher_suite_walk_str
  rw [hskip, hscan, Nat.sub_self]
  rfl

theorem claim_C10_empty_input_witness :
    0 ≤ (" ,;".data).length ∧
    (∀ c ∈ (" ,;".data).drop 0, cs_is_separator c = true) ∧
    Curl_cipher_suite_walk_str (" ,;".data) 0 =
      ((" ,;".data).length, (" ,;".data).length, 0) :=
  ⟨by decide, by decide, claim_C10_empty_input.2 _ 0 (by decide) (by decide)⟩
